import Mathlib

/-!
Verification of the demule discrete-event simulation core.

This file gives a shallow embedding of the parts of the repository that the
verified properties are about:

* `core/random/rndgen.py` — the multi-stream Lehmer pseudo-random generator
  (`MarcianiMultiStream`) and the single-stream variant
  (`MarcianiSingleStream`).  Python integers are modelled as `Int`.  The
  source computes quotients as `int(a / b)` (float division then truncation);
  on every value reachable here both operands are below `2^31`, where that
  expression equals integer floor division, so it is translated as `Int.tdiv`
  (truncated division, which agrees with floor division on the nonnegative
  values involved).  Python `%` with a positive modulus is `Int.emod`.
  A Python `raise ValueError` is modelled as `Except.error`.

* `core/simulation/model/calendar.py` — the next-event calendar with lazy
  cancellation.  Event occurrence times are modelled as `ℚ` (the claims under
  study depend only on the ordered-field structure of the float times) and
  the default stop time `float("inf")` as `⊤ : WithTop ℚ`.

* `core/simulation/model/taskgen.py` — the stream discipline of
  `SimpleTaskgen._generate_exponential`.

* `core/simulations/cloud/model/system.py` — the Cloudlet/Cloud routing state
  machine.  The `SimpleCloudLet` and `SimpleCloud` classes it delegates to
  are not part of the sources; they are modelled from the specification.

* `core/simulation/model/statistics.py` — the batch-means statistics group.
  The `BatchedMeasure` / `BatchedSampleStatistic` / `BatchedSamplePathStatistic`
  accumulators it drives are not part of the sources; they are modelled from
  the specification.
-/

namespace Demule

/-! ## Lehmer generator (`core/random/rndgen.py`) -/

def DEFAULT_MODULUS : Int := 2147483647

def DEFAULT_MULTIPLIER : Int := 48271

def DEFAULT_STREAMS : Nat := 256

def DEFAULT_JUMPER : Int := 22925

def DEFAULT_ISEED : Int := 123456789

/-- One step of the Schrage-style modular multiplication
`t = a*(s % Q) - R*(s // Q); t if t > 0 else t + m` with `Q = m // a`,
`R = m % a`.  This is the body shared verbatim by `MarcianiMultiStream.rnd`,
`MarcianiMultiStream.plant_seeds` (with the jumper as multiplier) and
`MarcianiSingleStream.rnd` in `core/random/rndgen.py`. -/
def lehmer_step (m a s : Int) : Int :=
  let Q := m.tdiv a
  let R := m.emod a
  let t := a * (s.emod Q) - R * (s.tdiv Q)
  if 0 < t then t else t + m

/-- `lehmer_step` iterated `n` times (the seed after `n` calls to `rnd`). -/
def lehmer_iter (m a : Int) : Nat → Int → Int
  | 0, s => s
  | n + 1, s => lehmer_iter m a n (lehmer_step m a s)

/-- The state of a `MarcianiMultiStream` generator: the constructor arguments,
the index of the currently selected stream (`self._stream`), the
lazy-initialization flag (`self._init`) and the per-stream seed list
(`self._seeds`).  The class keeps `stream < streams = seeds.length` (the
`stream()` method reduces modulo `streams`); list reads are modelled with
default `0` and writes out of range as no-ops, both unreachable through the
class API. -/
structure MultiStream where
  iseed : Int
  modulus : Int
  multiplier : Int
  streams : Nat
  jumper : Int
  stream : Nat
  init : Bool
  seeds : List Int
deriving Repr, DecidableEq

/-- `MarcianiMultiStream.put_seed(x)`: raises `ValueError` unless `x > 0`,
otherwise stores `x % modulus` into the seed of the current stream. -/
def MultiStream.put_seed (g : MultiStream) (x : Int) : Except String MultiStream :=
  if 0 < x then
    .ok { g with seeds := g.seeds.set g.stream (x.emod g.modulus) }
  else
    .error "x must be a positive number in (0, modulus)"

/-- The seed-derivation loop of `plant_seeds`:
`for j in range(1, streams): seeds[j] = jump(seeds[j-1])`. -/
def plant_loop (m g Q R : Int) (js : List Nat) (seeds : List Int) : List Int :=
  js.foldl
    (fun acc j =>
      acc.set j
        (let x := g * ((acc.getD (j - 1) 0).emod Q) - R * ((acc.getD (j - 1) 0).tdiv Q)
         if 0 < x then x else x + m))
    seeds

/-- `MarcianiMultiStream.plant_seeds(x)`: sets `_init`, seeds stream `0` with
`x` via `put_seed` (restoring the previously selected stream afterwards), then
derives the seed of each stream `j ≥ 1` from stream `j-1` with the jumper. -/
def MultiStream.plant_seeds (g : MultiStream) (x : Int) : Except String MultiStream :=
  let Q := g.modulus.tdiv g.jumper
  let R := g.modulus.emod g.jumper
  let g0 : MultiStream := { g with init := true, stream := 0 % g.streams }
  match g0.put_seed x with
  | .error e => .error e
  | .ok g1 =>
    let g2 : MultiStream := { g1 with stream := g.stream }
    .ok { g2 with
          seeds := plant_loop g.modulus g.jumper Q R (List.range' 1 (g.streams - 1)) g2.seeds }

/-- The `MarcianiMultiStream` constructor: seed list `[iseed] * streams`,
stream `0`, then `plant_seeds(iseed)`. -/
def MultiStream.new (iseed modulus multiplier : Int) (streams : Nat) (jumper : Int) :
    Except String MultiStream :=
  MultiStream.plant_seeds
    { iseed := iseed, modulus := modulus, multiplier := multiplier,
      streams := streams, jumper := jumper, stream := 0, init := false,
      seeds := List.replicate streams iseed } iseed

/-- `MarcianiMultiStream.stream(stream_id)`: selects stream `stream_id % streams`
and triggers the lazy full seeding if the generator was never initialized. -/
def MultiStream.select_stream (g : MultiStream) (stream_id : Nat) :
    Except String MultiStream :=
  let g' : MultiStream := { g with stream := stream_id % g.streams }
  if g'.init = false ∧ g'.stream ≠ 0 then g'.plant_seeds g'.iseed else .ok g'

/-- `MarcianiMultiStream.rnd()`: advances the seed of the currently selected
stream by one Lehmer step and returns it (the Python method returns the float
`seed / modulus`; the claims under study concern the integer seed state, so
the new raw seed is returned alongside the new state). -/
def MultiStream.rnd (g : MultiStream) : MultiStream × Int :=
  let s' := lehmer_step g.modulus g.multiplier (g.seeds.getD g.stream 0)
  ({ g with seeds := g.seeds.set g.stream s' }, s')

/-- `n` successive calls to `rnd()`, keeping the state. -/
def rnd_iter : Nat → MultiStream → MultiStream
  | 0, g => g
  | n + 1, g => rnd_iter n (g.rnd).1

/-! Auxiliary lemmas about the generator. -/

theorem lehmer_iter_add (m a : Int) (p q : Nat) (s : Int) :
    lehmer_iter m a (p + q) s = lehmer_iter m a q (lehmer_iter m a p s) := by
  induction p generalizing s with
  | zero => simp [lehmer_iter]
  | succ k ih =>
    have h : k + 1 + q = (k + q) + 1 := by omega
    rw [h]
    show lehmer_iter m a (k + q) (lehmer_step m a s) = _
    rw [ih]
    rfl

theorem rnd_fields (g : MultiStream) :
    (g.rnd).1.stream = g.stream ∧ (g.rnd).1.modulus = g.modulus ∧
      (g.rnd).1.multiplier = g.multiplier ∧
      (g.rnd).1.seeds =
        g.seeds.set g.stream (lehmer_step g.modulus g.multiplier (g.seeds.getD g.stream 0)) := by
  refine ⟨rfl, rfl, rfl, rfl⟩

theorem rnd_iter_seed0 (n : Nat) :
    ∀ g : MultiStream, g.stream = 0 → 0 < g.seeds.length →
      (rnd_iter n g).seeds.get? 0 =
        some (lehmer_iter g.modulus g.multiplier n (g.seeds.getD 0 0)) := by
  induction n with
  | zero =>
    intro g h0 hl
    cases hseeds : g.seeds with
    | nil => rw [hseeds] at hl; simp at hl
    | cons a l => simp [rnd_iter, lehmer_iter, hseeds, List.getD]
  | succ k ih =>
    intro g h0 hl
    have hstep := ih (g.rnd).1 (by rw [(rnd_fields g).1, h0])
      (by simpa [(rnd_fields g).2.2.2, List.length_set] using hl)
    rw [show rnd_iter (k + 1) g = rnd_iter k (g.rnd).1 from rfl, hstep,
      (rnd_fields g).2.1, (rnd_fields g).2.2.1]
    have hset : (g.rnd).1.seeds.getD 0 0 =
        lehmer_step g.modulus g.multiplier (g.seeds.getD 0 0) := by
      rw [(rnd_fields g).2.2.2, h0, List.getD, List.get?_set_eq_of_lt _ (h0 ▸ hl)]
      rfl
    rw [hset]
    rfl


/-! The known-answer computation: the seed of stream 0 after 10000 Lehmer steps
from seed 1 with the default 32-bit parameters.  The 10000 steps are checked in
chunks of 100 kernel-evaluated steps each (`lehmer_val_k` gives the seed after
`100*k` steps), glued with `lehmer_iter_add`. -/

set_option maxRecDepth 100000 in
theorem lehmer_val_1 :
    lehmer_iter DEFAULT_MODULUS DEFAULT_MULTIPLIER 100 1 = 1358404307 := by decide

set_option maxRecDepth 100000 in
theorem lehmer_val_2 :
    lehmer_iter DEFAULT_MODULUS DEFAULT_MULTIPLIER 200 1 = 872671849 := by
  have h : (200 : Nat) = 100 + 100 := by norm_num
  rw [h, lehmer_iter_add, lehmer_val_1]
  decide

set_option maxRecDepth 100000 in
theorem lehmer_val_3 :
    lehmer_iter DEFAULT_MODULUS DEFAULT_MULTIPLIER 300 1 = 1450405765 := by
  have h : (300 : Nat) = 200 + 100 := by norm_num
  rw [h, lehmer_iter_add, lehmer_val_2]
  decide

set_option maxRecDepth 100000 in
theorem lehmer_val_4 :
    lehmer_iter DEFAULT_MODULUS DEFAULT_MULTIPLIER 400 1 = 306007461 := by
  have h : (400 : Nat) = 300 + 100 := by norm_num
  rw [h, lehmer_iter_add, lehmer_val_3]
  decide

set_option maxRecDepth 100000 in
theorem lehmer_val_5 :
    lehmer_iter DEFAULT_MODULUS DEFAULT_MULTIPLIER 500 1 = 1861802465 := by
  have h : (500 : Nat) = 400 + 100 := by norm_num
  rw [h, lehmer_iter_add, lehmer_val_4]
  decide

set_option maxRecDepth 100000 in
theorem lehmer_val_6 :
    lehmer_iter DEFAULT_MODULUS DEFAULT_MULTIPLIER 600 1 = 2021007630 := by
  have h : (600 : Nat) = 500 + 100 := by norm_num
  rw [h, lehmer_iter_add, lehmer_val_5]
  decide

set_option maxRecDepth 100000 in
theorem lehmer_val_7 :
    lehmer_iter DEFAULT_MODULUS DEFAULT_MULTIPLIER 700 1 = 1777632475 := by
  have h : (700 : Nat) = 600 + 100 := by norm_num
  rw [h, lehmer_iter_add, lehmer_val_6]
  decide

set_option maxRecDepth 100000 in
theorem lehmer_val_8 :
    lehmer_iter DEFAULT_MODULUS DEFAULT_MULTIPLIER 800 1 = 1321731979 := by
  have h : (800 : Nat) = 700 + 100 := by norm_num
  rw [h, lehmer_iter_add, lehmer_val_7]
  decide

set_option maxRecDepth 100000 in
theorem lehmer_val_9 :
    lehmer_iter DEFAULT_MODULUS DEFAULT_MULTIPLIER 900 1 = 744112017 := by
  have h : (900 : Nat) = 800 + 100 := by norm_num
  rw [h, lehmer_iter_add, lehmer_val_8]
  decide

set_option maxRecDepth 100000 in
theorem lehmer_val_10 :
    lehmer_iter DEFAULT_MODULUS DEFAULT_MULTIPLIER 1000 1 = 429183498 := by
  have h : (1000 : Nat) = 900 + 100 := by norm_num
  rw [h, lehmer_iter_add, lehmer_val_9]
  decide

set_option maxRecDepth 100000 in
theorem lehmer_val_11 :
    lehmer_iter DEFAULT_MODULUS DEFAULT_MULTIPLIER 1100 1 = 1943511458 := by
  have h : (1100 : Nat) = 1000 + 100 := by norm_num
  rw [h, lehmer_iter_add, lehmer_val_10]
  decide

set_option maxRecDepth 100000 in
theorem lehmer_val_12 :
    lehmer_iter DEFAULT_MODULUS DEFAULT_MULTIPLIER 1200 1 = 243959748 := by
  have h : (1200 : Nat) = 1100 + 100 := by norm_num
  rw [h, lehmer_iter_add, lehmer_val_11]
  decide

set_option maxRecDepth 100000 in
theorem lehmer_val_13 :
    lehmer_iter DEFAULT_MODULUS DEFAULT_MULTIPLIER 1300 1 = 422085711 := by
  have h : (1300 : Nat) = 1200 + 100 := by norm_num
  rw [h, lehmer_iter_add, lehmer_val_12]
  decide

set_option maxRecDepth 100000 in
theorem lehmer_val_14 :
    lehmer_iter DEFAULT_MODULUS DEFAULT_MULTIPLIER 1400 1 = 69177452 := by
  have h : (1400 : Nat) = 1300 + 100 := by norm_num
  rw [h, lehmer_iter_add, lehmer_val_13]
  decide

set_option maxRecDepth 100000 in
theorem lehmer_val_15 :
    lehmer_iter DEFAULT_MODULUS DEFAULT_MULTIPLIER 1500 1 = 2108994860 := by
  have h : (1500 : Nat) = 1400 + 100 := by norm_num
  rw [h, lehmer_iter_add, lehmer_val_14]
  decide

set_option maxRecDepth 100000 in
theorem lehmer_val_16 :
    lehmer_iter DEFAULT_MODULUS DEFAULT_MULTIPLIER 1600 1 = 770041666 := by
  have h : (1600 : Nat) = 1500 + 100 := by norm_num
  rw [h, lehmer_iter_add, lehmer_val_15]
  decide

set_option maxRecDepth 100000 in
theorem lehmer_val_17 :
    lehmer_iter DEFAULT_MODULUS DEFAULT_MULTIPLIER 1700 1 = 2136066327 := by
  have h : (1700 : Nat) = 1600 + 100 := by norm_num
  rw [h, lehmer_iter_add, lehmer_val_16]
  decide

set_option maxRecDepth 100000 in
theorem lehmer_val_18 :
    lehmer_iter DEFAULT_MODULUS DEFAULT_MULTIPLIER 1800 1 = 689634166 := by
  have h : (1800 : Nat) = 1700 + 100 := by norm_num
  rw [h, lehmer_iter_add, lehmer_val_17]
  decide

set_option maxRecDepth 100000 in
theorem lehmer_val_19 :
    lehmer_iter DEFAULT_MODULUS DEFAULT_MULTIPLIER 1900 1 = 895262517 := by
  have h : (1900 : Nat) = 1800 + 100 := by norm_num
  rw [h, lehmer_iter_add, lehmer_val_18]
  decide

set_option maxRecDepth 100000 in
theorem lehmer_val_20 :
    lehmer_iter DEFAULT_MODULUS DEFAULT_MULTIPLIER 2000 1 = 16856951 := by
  have h : (2000 : Nat) = 1900 + 100 := by norm_num
  rw [h, lehmer_iter_add, lehmer_val_19]
  decide

set_option maxRecDepth 100000 in
theorem lehmer_val_21 :
    lehmer_iter DEFAULT_MODULUS DEFAULT_MULTIPLIER 2100 1 = 1137836367 := by
  have h : (2100 : Nat) = 2000 + 100 := by norm_num
  rw [h, lehmer_iter_add, lehmer_val_20]
  decide

set_option maxRecDepth 100000 in
theorem lehmer_val_22 :
    lehmer_iter DEFAULT_MODULUS DEFAULT_MULTIPLIER 2200 1 = 1493175349 := by
  have h : (2200 : Nat) = 2100 + 100 := by norm_num
  rw [h, lehmer_iter_add, lehmer_val_21]
  decide

set_option maxRecDepth 100000 in
theorem lehmer_val_23 :
    lehmer_iter DEFAULT_MODULUS DEFAULT_MULTIPLIER 2300 1 = 1909531406 := by
  have h : (2300 : Nat) = 2200 + 100 := by norm_num
  rw [h, lehmer_iter_add, lehmer_val_22]
  decide

set_option maxRecDepth 100000 in
theorem lehmer_val_24 :
    lehmer_iter DEFAULT_MODULUS DEFAULT_MULTIPLIER 2400 1 = 418853296 := by
  have h : (2400 : Nat) = 2300 + 100 := by norm_num
  rw [h, lehmer_iter_add, lehmer_val_23]
  decide

set_option maxRecDepth 100000 in
theorem lehmer_val_25 :
    lehmer_iter DEFAULT_MODULUS DEFAULT_MULTIPLIER 2500 1 = 1211932242 := by
  have h : (2500 : Nat) = 2400 + 100 := by norm_num
  rw [h, lehmer_iter_add, lehmer_val_24]
  decide

set_option maxRecDepth 100000 in
theorem lehmer_val_26 :
    lehmer_iter DEFAULT_MODULUS DEFAULT_MULTIPLIER 2600 1 = 268660963 := by
  have h : (2600 : Nat) = 2500 + 100 := by norm_num
  rw [h, lehmer_iter_add, lehmer_val_25]
  decide

set_option maxRecDepth 100000 in
theorem lehmer_val_27 :
    lehmer_iter DEFAULT_MODULUS DEFAULT_MULTIPLIER 2700 1 = 702855593 := by
  have h : (2700 : Nat) = 2600 + 100 := by norm_num
  rw [h, lehmer_iter_add, lehmer_val_26]
  decide

set_option maxRecDepth 100000 in
theorem lehmer_val_28 :
    lehmer_iter DEFAULT_MODULUS DEFAULT_MULTIPLIER 2800 1 = 734244447 := by
  have h : (2800 : Nat) = 2700 + 100 := by norm_num
  rw [h, lehmer_iter_add, lehmer_val_27]
  decide

set_option maxRecDepth 100000 in
theorem lehmer_val_29 :
    lehmer_iter DEFAULT_MODULUS DEFAULT_MULTIPLIER 2900 1 = 1384502226 := by
  have h : (2900 : Nat) = 2800 + 100 := by norm_num
  rw [h, lehmer_iter_add, lehmer_val_28]
  decide

set_option maxRecDepth 100000 in
theorem lehmer_val_30 :
    lehmer_iter DEFAULT_MODULUS DEFAULT_MULTIPLIER 3000 1 = 965423241 := by
  have h : (3000 : Nat) = 2900 + 100 := by norm_num
  rw [h, lehmer_iter_add, lehmer_val_29]
  decide

set_option maxRecDepth 100000 in
theorem lehmer_val_31 :
    lehmer_iter DEFAULT_MODULUS DEFAULT_MULTIPLIER 3100 1 = 1904261490 := by
  have h : (3100 : Nat) = 3000 + 100 := by norm_num
  rw [h, lehmer_iter_add, lehmer_val_30]
  decide

set_option maxRecDepth 100000 in
theorem lehmer_val_32 :
    lehmer_iter DEFAULT_MODULUS DEFAULT_MULTIPLIER 3200 1 = 1366388877 := by
  have h : (3200 : Nat) = 3100 + 100 := by norm_num
  rw [h, lehmer_iter_add, lehmer_val_31]
  decide

set_option maxRecDepth 100000 in
theorem lehmer_val_33 :
    lehmer_iter DEFAULT_MODULUS DEFAULT_MULTIPLIER 3300 1 = 969148409 := by
  have h : (3300 : Nat) = 3200 + 100 := by norm_num
  rw [h, lehmer_iter_add, lehmer_val_32]
  decide

set_option maxRecDepth 100000 in
theorem lehmer_val_34 :
    lehmer_iter DEFAULT_MODULUS DEFAULT_MULTIPLIER 3400 1 = 791125853 := by
  have h : (3400 : Nat) = 3300 + 100 := by norm_num
  rw [h, lehmer_iter_add, lehmer_val_33]
  decide

set_option maxRecDepth 100000 in
theorem lehmer_val_35 :
    lehmer_iter DEFAULT_MODULUS DEFAULT_MULTIPLIER 3500 1 = 605374144 := by
  have h : (3500 : Nat) = 3400 + 100 := by norm_num
  rw [h, lehmer_iter_add, lehmer_val_34]
  decide

set_option maxRecDepth 100000 in
theorem lehmer_val_36 :
    lehmer_iter DEFAULT_MODULUS DEFAULT_MULTIPLIER 3600 1 = 1680599339 := by
  have h : (3600 : Nat) = 3500 + 100 := by norm_num
  rw [h, lehmer_iter_add, lehmer_val_35]
  decide

set_option maxRecDepth 100000 in
theorem lehmer_val_37 :
    lehmer_iter DEFAULT_MODULUS DEFAULT_MULTIPLIER 3700 1 = 575620114 := by
  have h : (3700 : Nat) = 3600 + 100 := by norm_num
  rw [h, lehmer_iter_add, lehmer_val_36]
  decide

set_option maxRecDepth 100000 in
theorem lehmer_val_38 :
    lehmer_iter DEFAULT_MODULUS DEFAULT_MULTIPLIER 3800 1 = 1499060182 := by
  have h : (3800 : Nat) = 3700 + 100 := by norm_num
  rw [h, lehmer_iter_add, lehmer_val_37]
  decide

set_option maxRecDepth 100000 in
theorem lehmer_val_39 :
    lehmer_iter DEFAULT_MODULUS DEFAULT_MULTIPLIER 3900 1 = 149069754 := by
  have h : (3900 : Nat) = 3800 + 100 := by norm_num
  rw [h, lehmer_iter_add, lehmer_val_38]
  decide

set_option maxRecDepth 100000 in
theorem lehmer_val_40 :
    lehmer_iter DEFAULT_MODULUS DEFAULT_MULTIPLIER 4000 1 = 1760845361 := by
  have h : (4000 : Nat) = 3900 + 100 := by norm_num
  rw [h, lehmer_iter_add, lehmer_val_39]
  decide

set_option maxRecDepth 100000 in
theorem lehmer_val_41 :
    lehmer_iter DEFAULT_MODULUS DEFAULT_MULTIPLIER 4100 1 = 1975377346 := by
  have h : (4100 : Nat) = 4000 + 100 := by norm_num
  rw [h, lehmer_iter_add, lehmer_val_40]
  decide

set_option maxRecDepth 100000 in
theorem lehmer_val_42 :
    lehmer_iter DEFAULT_MODULUS DEFAULT_MULTIPLIER 4200 1 = 596437068 := by
  have h : (4200 : Nat) = 4100 + 100 := by norm_num
  rw [h, lehmer_iter_add, lehmer_val_41]
  decide

set_option maxRecDepth 100000 in
theorem lehmer_val_43 :
    lehmer_iter DEFAULT_MODULUS DEFAULT_MULTIPLIER 4300 1 = 145884348 := by
  have h : (4300 : Nat) = 4200 + 100 := by norm_num
  rw [h, lehmer_iter_add, lehmer_val_42]
  decide

set_option maxRecDepth 100000 in
theorem lehmer_val_44 :
    lehmer_iter DEFAULT_MODULUS DEFAULT_MULTIPLIER 4400 1 = 410457075 := by
  have h : (4400 : Nat) = 4300 + 100 := by norm_num
  rw [h, lehmer_iter_add, lehmer_val_43]
  decide

set_option maxRecDepth 100000 in
theorem lehmer_val_45 :
    lehmer_iter DEFAULT_MODULUS DEFAULT_MULTIPLIER 4500 1 = 185884449 := by
  have h : (4500 : Nat) = 4400 + 100 := by norm_num
  rw [h, lehmer_iter_add, lehmer_val_44]
  decide

set_option maxRecDepth 100000 in
theorem lehmer_val_46 :
    lehmer_iter DEFAULT_MODULUS DEFAULT_MULTIPLIER 4600 1 = 48065630 := by
  have h : (4600 : Nat) = 4500 + 100 := by norm_num
  rw [h, lehmer_iter_add, lehmer_val_45]
  decide

set_option maxRecDepth 100000 in
theorem lehmer_val_47 :
    lehmer_iter DEFAULT_MODULUS DEFAULT_MULTIPLIER 4700 1 = 3329011 := by
  have h : (4700 : Nat) = 4600 + 100 := by norm_num
  rw [h, lehmer_iter_add, lehmer_val_46]
  decide

set_option maxRecDepth 100000 in
theorem lehmer_val_48 :
    lehmer_iter DEFAULT_MODULUS DEFAULT_MULTIPLIER 4800 1 = 1881368835 := by
  have h : (4800 : Nat) = 4700 + 100 := by norm_num
  rw [h, lehmer_iter_add, lehmer_val_47]
  decide

set_option maxRecDepth 100000 in
theorem lehmer_val_49 :
    lehmer_iter DEFAULT_MODULUS DEFAULT_MULTIPLIER 4900 1 = 1127180563 := by
  have h : (4900 : Nat) = 4800 + 100 := by norm_num
  rw [h, lehmer_iter_add, lehmer_val_48]
  decide

set_option maxRecDepth 100000 in
theorem lehmer_val_50 :
    lehmer_iter DEFAULT_MODULUS DEFAULT_MULTIPLIER 5000 1 = 1629331733 := by
  have h : (5000 : Nat) = 4900 + 100 := by norm_num
  rw [h, lehmer_iter_add, lehmer_val_49]
  decide

set_option maxRecDepth 100000 in
theorem lehmer_val_51 :
    lehmer_iter DEFAULT_MODULUS DEFAULT_MULTIPLIER 5100 1 = 386123681 := by
  have h : (5100 : Nat) = 5000 + 100 := by norm_num
  rw [h, lehmer_iter_add, lehmer_val_50]
  decide

set_option maxRecDepth 100000 in
theorem lehmer_val_52 :
    lehmer_iter DEFAULT_MODULUS DEFAULT_MULTIPLIER 5200 1 = 958023065 := by
  have h : (5200 : Nat) = 5100 + 100 := by norm_num
  rw [h, lehmer_iter_add, lehmer_val_51]
  decide

set_option maxRecDepth 100000 in
theorem lehmer_val_53 :
    lehmer_iter DEFAULT_MODULUS DEFAULT_MULTIPLIER 5300 1 = 2034452574 := by
  have h : (5300 : Nat) = 5200 + 100 := by norm_num
  rw [h, lehmer_iter_add, lehmer_val_52]
  decide

set_option maxRecDepth 100000 in
theorem lehmer_val_54 :
    lehmer_iter DEFAULT_MODULUS DEFAULT_MULTIPLIER 5400 1 = 1801703735 := by
  have h : (5400 : Nat) = 5300 + 100 := by norm_num
  rw [h, lehmer_iter_add, lehmer_val_53]
  decide

set_option maxRecDepth 100000 in
theorem lehmer_val_55 :
    lehmer_iter DEFAULT_MODULUS DEFAULT_MULTIPLIER 5500 1 = 1595909530 := by
  have h : (5500 : Nat) = 5400 + 100 := by norm_num
  rw [h, lehmer_iter_add, lehmer_val_54]
  decide

set_option maxRecDepth 100000 in
theorem lehmer_val_56 :
    lehmer_iter DEFAULT_MODULUS DEFAULT_MULTIPLIER 5600 1 = 343272335 := by
  have h : (5600 : Nat) = 5500 + 100 := by norm_num
  rw [h, lehmer_iter_add, lehmer_val_55]
  decide

set_option maxRecDepth 100000 in
theorem lehmer_val_57 :
    lehmer_iter DEFAULT_MODULUS DEFAULT_MULTIPLIER 5700 1 = 1355773026 := by
  have h : (5700 : Nat) = 5600 + 100 := by norm_num
  rw [h, lehmer_iter_add, lehmer_val_56]
  decide

set_option maxRecDepth 100000 in
theorem lehmer_val_58 :
    lehmer_iter DEFAULT_MODULUS DEFAULT_MULTIPLIER 5800 1 = 78371733 := by
  have h : (5800 : Nat) = 5700 + 100 := by norm_num
  rw [h, lehmer_iter_add, lehmer_val_57]
  decide

set_option maxRecDepth 100000 in
theorem lehmer_val_59 :
    lehmer_iter DEFAULT_MODULUS DEFAULT_MULTIPLIER 5900 1 = 729092180 := by
  have h : (5900 : Nat) = 5800 + 100 := by norm_num
  rw [h, lehmer_iter_add, lehmer_val_58]
  decide

set_option maxRecDepth 100000 in
theorem lehmer_val_60 :
    lehmer_iter DEFAULT_MODULUS DEFAULT_MULTIPLIER 6000 1 = 1507342310 := by
  have h : (6000 : Nat) = 5900 + 100 := by norm_num
  rw [h, lehmer_iter_add, lehmer_val_59]
  decide

set_option maxRecDepth 100000 in
theorem lehmer_val_61 :
    lehmer_iter DEFAULT_MODULUS DEFAULT_MULTIPLIER 6100 1 = 647322986 := by
  have h : (6100 : Nat) = 6000 + 100 := by norm_num
  rw [h, lehmer_iter_add, lehmer_val_60]
  decide

set_option maxRecDepth 100000 in
theorem lehmer_val_62 :
    lehmer_iter DEFAULT_MODULUS DEFAULT_MULTIPLIER 6200 1 = 16498598 := by
  have h : (6200 : Nat) = 6100 + 100 := by norm_num
  rw [h, lehmer_iter_add, lehmer_val_61]
  decide

set_option maxRecDepth 100000 in
theorem lehmer_val_63 :
    lehmer_iter DEFAULT_MODULUS DEFAULT_MULTIPLIER 6300 1 = 177344662 := by
  have h : (6300 : Nat) = 6200 + 100 := by norm_num
  rw [h, lehmer_iter_add, lehmer_val_62]
  decide

set_option maxRecDepth 100000 in
theorem lehmer_val_64 :
    lehmer_iter DEFAULT_MODULUS DEFAULT_MULTIPLIER 6400 1 = 2076681380 := by
  have h : (6400 : Nat) = 6300 + 100 := by norm_num
  rw [h, lehmer_iter_add, lehmer_val_63]
  decide

set_option maxRecDepth 100000 in
theorem lehmer_val_65 :
    lehmer_iter DEFAULT_MODULUS DEFAULT_MULTIPLIER 6500 1 = 119509771 := by
  have h : (6500 : Nat) = 6400 + 100 := by norm_num
  rw [h, lehmer_iter_add, lehmer_val_64]
  decide

set_option maxRecDepth 100000 in
theorem lehmer_val_66 :
    lehmer_iter DEFAULT_MODULUS DEFAULT_MULTIPLIER 6600 1 = 832131971 := by
  have h : (6600 : Nat) = 6500 + 100 := by norm_num
  rw [h, lehmer_iter_add, lehmer_val_65]
  decide

set_option maxRecDepth 100000 in
theorem lehmer_val_67 :
    lehmer_iter DEFAULT_MODULUS DEFAULT_MULTIPLIER 6700 1 = 1080125704 := by
  have h : (6700 : Nat) = 6600 + 100 := by norm_num
  rw [h, lehmer_iter_add, lehmer_val_66]
  decide

set_option maxRecDepth 100000 in
theorem lehmer_val_68 :
    lehmer_iter DEFAULT_MODULUS DEFAULT_MULTIPLIER 6800 1 = 686411029 := by
  have h : (6800 : Nat) = 6700 + 100 := by norm_num
  rw [h, lehmer_iter_add, lehmer_val_67]
  decide

set_option maxRecDepth 100000 in
theorem lehmer_val_69 :
    lehmer_iter DEFAULT_MODULUS DEFAULT_MULTIPLIER 6900 1 = 1731653410 := by
  have h : (6900 : Nat) = 6800 + 100 := by norm_num
  rw [h, lehmer_iter_add, lehmer_val_68]
  decide

set_option maxRecDepth 100000 in
theorem lehmer_val_70 :
    lehmer_iter DEFAULT_MODULUS DEFAULT_MULTIPLIER 7000 1 = 960072533 := by
  have h : (7000 : Nat) = 6900 + 100 := by norm_num
  rw [h, lehmer_iter_add, lehmer_val_69]
  decide

set_option maxRecDepth 100000 in
theorem lehmer_val_71 :
    lehmer_iter DEFAULT_MODULUS DEFAULT_MULTIPLIER 7100 1 = 1802805862 := by
  have h : (7100 : Nat) = 7000 + 100 := by norm_num
  rw [h, lehmer_iter_add, lehmer_val_70]
  decide

set_option maxRecDepth 100000 in
theorem lehmer_val_72 :
    lehmer_iter DEFAULT_MODULUS DEFAULT_MULTIPLIER 7200 1 = 255195293 := by
  have h : (7200 : Nat) = 7100 + 100 := by norm_num
  rw [h, lehmer_iter_add, lehmer_val_71]
  decide

set_option maxRecDepth 100000 in
theorem lehmer_val_73 :
    lehmer_iter DEFAULT_MODULUS DEFAULT_MULTIPLIER 7300 1 = 2049213268 := by
  have h : (7300 : Nat) = 7200 + 100 := by norm_num
  rw [h, lehmer_iter_add, lehmer_val_72]
  decide

set_option maxRecDepth 100000 in
theorem lehmer_val_74 :
    lehmer_iter DEFAULT_MODULUS DEFAULT_MULTIPLIER 7400 1 = 1718083203 := by
  have h : (7400 : Nat) = 7300 + 100 := by norm_num
  rw [h, lehmer_iter_add, lehmer_val_73]
  decide

set_option maxRecDepth 100000 in
theorem lehmer_val_75 :
    lehmer_iter DEFAULT_MODULUS DEFAULT_MULTIPLIER 7500 1 = 1151547224 := by
  have h : (7500 : Nat) = 7400 + 100 := by norm_num
  rw [h, lehmer_iter_add, lehmer_val_74]
  decide

set_option maxRecDepth 100000 in
theorem lehmer_val_76 :
    lehmer_iter DEFAULT_MODULUS DEFAULT_MULTIPLIER 7600 1 = 1394890265 := by
  have h : (7600 : Nat) = 7500 + 100 := by norm_num
  rw [h, lehmer_iter_add, lehmer_val_75]
  decide

set_option maxRecDepth 100000 in
theorem lehmer_val_77 :
    lehmer_iter DEFAULT_MODULUS DEFAULT_MULTIPLIER 7700 1 = 2037680921 := by
  have h : (7700 : Nat) = 7600 + 100 := by norm_num
  rw [h, lehmer_iter_add, lehmer_val_76]
  decide

set_option maxRecDepth 100000 in
theorem lehmer_val_78 :
    lehmer_iter DEFAULT_MODULUS DEFAULT_MULTIPLIER 7800 1 = 145651800 := by
  have h : (7800 : Nat) = 7700 + 100 := by norm_num
  rw [h, lehmer_iter_add, lehmer_val_77]
  decide

set_option maxRecDepth 100000 in
theorem lehmer_val_79 :
    lehmer_iter DEFAULT_MODULUS DEFAULT_MULTIPLIER 7900 1 = 1050146539 := by
  have h : (7900 : Nat) = 7800 + 100 := by norm_num
  rw [h, lehmer_iter_add, lehmer_val_78]
  decide

set_option maxRecDepth 100000 in
theorem lehmer_val_80 :
    lehmer_iter DEFAULT_MODULUS DEFAULT_MULTIPLIER 8000 1 = 1444868344 := by
  have h : (8000 : Nat) = 7900 + 100 := by norm_num
  rw [h, lehmer_iter_add, lehmer_val_79]
  decide

set_option maxRecDepth 100000 in
theorem lehmer_val_81 :
    lehmer_iter DEFAULT_MODULUS DEFAULT_MULTIPLIER 8100 1 = 1312275171 := by
  have h : (8100 : Nat) = 8000 + 100 := by norm_num
  rw [h, lehmer_iter_add, lehmer_val_80]
  decide

set_option maxRecDepth 100000 in
theorem lehmer_val_82 :
    lehmer_iter DEFAULT_MODULUS DEFAULT_MULTIPLIER 8200 1 = 1893382669 := by
  have h : (8200 : Nat) = 8100 + 100 := by norm_num
  rw [h, lehmer_iter_add, lehmer_val_81]
  decide

set_option maxRecDepth 100000 in
theorem lehmer_val_83 :
    lehmer_iter DEFAULT_MODULUS DEFAULT_MULTIPLIER 8300 1 = 1914776979 := by
  have h : (8300 : Nat) = 8200 + 100 := by norm_num
  rw [h, lehmer_iter_add, lehmer_val_82]
  decide

set_option maxRecDepth 100000 in
theorem lehmer_val_84 :
    lehmer_iter DEFAULT_MODULUS DEFAULT_MULTIPLIER 8400 1 = 935952567 := by
  have h : (8400 : Nat) = 8300 + 100 := by norm_num
  rw [h, lehmer_iter_add, lehmer_val_83]
  decide

set_option maxRecDepth 100000 in
theorem lehmer_val_85 :
    lehmer_iter DEFAULT_MODULUS DEFAULT_MULTIPLIER 8500 1 = 912131992 := by
  have h : (8500 : Nat) = 8400 + 100 := by norm_num
  rw [h, lehmer_iter_add, lehmer_val_84]
  decide

set_option maxRecDepth 100000 in
theorem lehmer_val_86 :
    lehmer_iter DEFAULT_MODULUS DEFAULT_MULTIPLIER 8600 1 = 1444782652 := by
  have h : (8600 : Nat) = 8500 + 100 := by norm_num
  rw [h, lehmer_iter_add, lehmer_val_85]
  decide

set_option maxRecDepth 100000 in
theorem lehmer_val_87 :
    lehmer_iter DEFAULT_MODULUS DEFAULT_MULTIPLIER 8700 1 = 1281485362 := by
  have h : (8700 : Nat) = 8600 + 100 := by norm_num
  rw [h, lehmer_iter_add, lehmer_val_86]
  decide

set_option maxRecDepth 100000 in
theorem lehmer_val_88 :
    lehmer_iter DEFAULT_MODULUS DEFAULT_MULTIPLIER 8800 1 = 572853995 := by
  have h : (8800 : Nat) = 8700 + 100 := by norm_num
  rw [h, lehmer_iter_add, lehmer_val_87]
  decide

set_option maxRecDepth 100000 in
theorem lehmer_val_89 :
    lehmer_iter DEFAULT_MODULUS DEFAULT_MULTIPLIER 8900 1 = 1507516371 := by
  have h : (8900 : Nat) = 8800 + 100 := by norm_num
  rw [h, lehmer_iter_add, lehmer_val_88]
  decide

set_option maxRecDepth 100000 in
theorem lehmer_val_90 :
    lehmer_iter DEFAULT_MODULUS DEFAULT_MULTIPLIER 9000 1 = 1467418072 := by
  have h : (9000 : Nat) = 8900 + 100 := by norm_num
  rw [h, lehmer_iter_add, lehmer_val_89]
  decide

set_option maxRecDepth 100000 in
theorem lehmer_val_91 :
    lehmer_iter DEFAULT_MODULUS DEFAULT_MULTIPLIER 9100 1 = 190404136 := by
  have h : (9100 : Nat) = 9000 + 100 := by norm_num
  rw [h, lehmer_iter_add, lehmer_val_90]
  decide

set_option maxRecDepth 100000 in
theorem lehmer_val_92 :
    lehmer_iter DEFAULT_MODULUS DEFAULT_MULTIPLIER 9200 1 = 1077665007 := by
  have h : (9200 : Nat) = 9100 + 100 := by norm_num
  rw [h, lehmer_iter_add, lehmer_val_91]
  decide

set_option maxRecDepth 100000 in
theorem lehmer_val_93 :
    lehmer_iter DEFAULT_MODULUS DEFAULT_MULTIPLIER 9300 1 = 2004453960 := by
  have h : (9300 : Nat) = 9200 + 100 := by norm_num
  rw [h, lehmer_iter_add, lehmer_val_92]
  decide

set_option maxRecDepth 100000 in
theorem lehmer_val_94 :
    lehmer_iter DEFAULT_MODULUS DEFAULT_MULTIPLIER 9400 1 = 1298619601 := by
  have h : (9400 : Nat) = 9300 + 100 := by norm_num
  rw [h, lehmer_iter_add, lehmer_val_93]
  decide

set_option maxRecDepth 100000 in
theorem lehmer_val_95 :
    lehmer_iter DEFAULT_MODULUS DEFAULT_MULTIPLIER 9500 1 = 145002331 := by
  have h : (9500 : Nat) = 9400 + 100 := by norm_num
  rw [h, lehmer_iter_add, lehmer_val_94]
  decide

set_option maxRecDepth 100000 in
theorem lehmer_val_96 :
    lehmer_iter DEFAULT_MODULUS DEFAULT_MULTIPLIER 9600 1 = 1680045978 := by
  have h : (9600 : Nat) = 9500 + 100 := by norm_num
  rw [h, lehmer_iter_add, lehmer_val_95]
  decide

set_option maxRecDepth 100000 in
theorem lehmer_val_97 :
    lehmer_iter DEFAULT_MODULUS DEFAULT_MULTIPLIER 9700 1 = 605820991 := by
  have h : (9700 : Nat) = 9600 + 100 := by norm_num
  rw [h, lehmer_iter_add, lehmer_val_96]
  decide

set_option maxRecDepth 100000 in
theorem lehmer_val_98 :
    lehmer_iter DEFAULT_MODULUS DEFAULT_MULTIPLIER 9800 1 = 1432242936 := by
  have h : (9800 : Nat) = 9700 + 100 := by norm_num
  rw [h, lehmer_iter_add, lehmer_val_97]
  decide

set_option maxRecDepth 100000 in
theorem lehmer_val_99 :
    lehmer_iter DEFAULT_MODULUS DEFAULT_MULTIPLIER 9900 1 = 555289722 := by
  have h : (9900 : Nat) = 9800 + 100 := by norm_num
  rw [h, lehmer_iter_add, lehmer_val_98]
  decide

set_option maxRecDepth 100000 in
theorem lehmer_val_100 :
    lehmer_iter DEFAULT_MODULUS DEFAULT_MULTIPLIER 10000 1 = 399268537 := by
  have h : (10000 : Nat) = 9900 + 100 := by norm_num
  rw [h, lehmer_iter_add, lehmer_val_99]
  decide

/-! Structure of the freshly constructed default generator with initial seed 1. -/

theorem plant_loop_length (m g Q R : Int) (js : List Nat) (l : List Int) :
    (plant_loop m g Q R js l).length = l.length := by
  induction js generalizing l with
  | nil => rfl
  | cons j js ih =>
    show (plant_loop m g Q R js (l.set j _)).length = l.length
    rw [ih, List.length_set]

theorem plant_loop_get0 (m g Q R : Int) (js : List Nat) (l : List Int)
    (hjs : ∀ j ∈ js, 1 ≤ j) :
    (plant_loop m g Q R js l).get? 0 = l.get? 0 := by
  induction js generalizing l with
  | nil => rfl
  | cons j js ih =>
    show (plant_loop m g Q R js (l.set j _)).get? 0 = _
    rw [ih _ (fun x hx => hjs x (List.mem_cons_of_mem _ hx)),
      List.get?_set_ne _ _ (by have := hjs j (List.mem_cons_self _ _); omega)]

theorem new_1_ok :
    ∃ G : MultiStream,
      MultiStream.new 1 DEFAULT_MODULUS DEFAULT_MULTIPLIER DEFAULT_STREAMS
          DEFAULT_JUMPER = .ok G ∧
        G.stream = 0 ∧ G.modulus = DEFAULT_MODULUS ∧ G.multiplier = DEFAULT_MULTIPLIER ∧
        G.seeds.get? 0 = some 1 ∧ 0 < G.seeds.length := by
  refine ⟨{ iseed := 1, modulus := DEFAULT_MODULUS, multiplier := DEFAULT_MULTIPLIER,
            streams := DEFAULT_STREAMS, jumper := DEFAULT_JUMPER, stream := 0, init := true,
            seeds := plant_loop DEFAULT_MODULUS DEFAULT_JUMPER
              (DEFAULT_MODULUS.tdiv DEFAULT_JUMPER) (DEFAULT_MODULUS.emod DEFAULT_JUMPER)
              (List.range' 1 (DEFAULT_STREAMS - 1))
              ((List.replicate DEFAULT_STREAMS (1 : Int)).set 0
                ((1 : Int).emod DEFAULT_MODULUS)) },
    rfl, rfl, rfl, rfl, ?_, ?_⟩
  · rw [plant_loop_get0 _ _ _ _ _ _
      (fun j hj => by
        obtain ⟨i, _, hji⟩ := List.mem_range'.1 hj
        omega)]
    decide
  · rw [plant_loop_length, List.length_set, List.length_replicate]
    decide

/-- C3: for the multi-stream generator with the default parameters and initial
seed 1, after exactly 10000 `rnd()` draws on the initial stream the raw seed
integer of that stream is 399268537. -/
theorem rnd_known_answer :
    (MultiStream.new 1 DEFAULT_MODULUS DEFAULT_MULTIPLIER DEFAULT_STREAMS
        DEFAULT_JUMPER).toOption.map
      (fun gen => (rnd_iter 10000 gen).seeds.getD 0 0) = some 399268537 := by
  obtain ⟨G, hok, hs, hm, ha, hg, hl⟩ := new_1_ok
  rw [hok]
  show some ((rnd_iter 10000 G).seeds.getD 0 0) = some 399268537
  have h := rnd_iter_seed0 10000 G hs hl
  have hGD : G.seeds.getD 0 0 = 1 := by rw [List.getD, hg]; rfl
  rw [hm, ha, hGD, lehmer_val_100] at h
  rw [List.getD, h]
  rfl

/-- C7: a call to `rnd()` mutates only the seed of the currently selected
stream; every other stream's seed is unchanged. -/
theorem rnd_frame (g : MultiStream) (j : Nat) (h : j ≠ g.stream) :
    (g.rnd).1.seeds.get? j = g.seeds.get? j := by
  rw [(rnd_fields g).2.2.2, List.get?_set_ne _ _ (fun he => h he.symm)]

def gen_w7 : MultiStream :=
  { iseed := 1, modulus := DEFAULT_MODULUS, multiplier := DEFAULT_MULTIPLIER,
    streams := 2, jumper := DEFAULT_JUMPER, stream := 0, init := true, seeds := [5, 7] }

theorem rnd_frame_witness : (gen_w7.rnd).1.seeds.get? 1 = gen_w7.seeds.get? 1 :=
  rnd_frame gen_w7 1 (by decide)


theorem except_ok_of_toOption {α : Type} {β : Type} (e : Except α β) (b : β)
    (h : e.toOption = some b) : e = .ok b := by
  cases e <;> simp_all [Except.toOption]

/-- C8: `put_seed(x)` raises exactly when `x ≤ 0`; for positive `x` it stores
`x mod modulus` in the active stream's seed and leaves every other stream's
seed unchanged. -/
theorem put_seed_spec (g : MultiStream) (x : Int) :
    ((g.put_seed x).isOk = true ↔ 0 < x) ∧
      ∀ g', g.put_seed x = .ok g' →
        (g.stream < g.seeds.length →
          g'.seeds.get? g.stream = some (x.emod g.modulus)) ∧
        ∀ j, j ≠ g.stream → g'.seeds.get? j = g.seeds.get? j := by
  constructor
  · unfold MultiStream.put_seed
    split
    · simp_all [Except.isOk, Except.toBool]
    · simp_all [Except.isOk, Except.toBool]
  · intro g' hok
    unfold MultiStream.put_seed at hok
    split at hok
    · cases hok
      refine ⟨fun hlt => ?_, fun j hj => ?_⟩
      · exact List.get?_set_eq_of_lt _ hlt
      · exact List.get?_set_ne _ _ (fun he => hj he.symm)
    · cases hok

def gen_w8 : MultiStream :=
  { iseed := 1, modulus := DEFAULT_MODULUS, multiplier := DEFAULT_MULTIPLIER,
    streams := 2, jumper := DEFAULT_JUMPER, stream := 0, init := true, seeds := [5, 7] }

def gen_w8_after : MultiStream :=
  { gen_w8 with seeds := [(11 : Int), 7] }

theorem put_seed_spec_witness :
    ((gen_w8.put_seed 11).isOk = true) ∧
      gen_w8_after.seeds.get? 0 = some ((11 : Int).emod gen_w8.modulus) ∧
      gen_w8_after.seeds.get? 1 = gen_w8.seeds.get? 1 := by
  have h := put_seed_spec gen_w8 11
  have hok : gen_w8.put_seed 11 = .ok gen_w8_after :=
    except_ok_of_toOption _ _ (by decide)
  exact ⟨h.1.2 (by decide), (h.2 gen_w8_after hok).1 (by decide),
    (h.2 gen_w8_after hok).2 1 (by decide)⟩

/-! ## Single-stream generator (`MarcianiSingleStream`, `core/random/rndgen.py`) -/

/-- State of `MarcianiSingleStream`. -/
structure MarcianiSingleStream where
  iseed : Int
  seed : Int
  modulus : Int
  multiplier : Int
deriving Repr, DecidableEq

/-- `MarcianiSingleStream.put_seed(x)`: raises `ValueError` unless `x > 0`.
The source computes `x %= self._modulus` but never assigns `self._seed`, so
for positive `x` the generator state is returned unchanged. -/
def MarcianiSingleStream.put_seed (g : MarcianiSingleStream) (x : Int) :
    Except String MarcianiSingleStream :=
  if 0 < x then
    let _x := x.emod g.modulus
    .ok g
  else
    .error "x must be a positive number in (0, modulus)"

/-- `MarcianiSingleStream.get_seed()`. -/
def MarcianiSingleStream.get_seed (g : MarcianiSingleStream) : Int := g.seed

/-- C10: `MarcianiSingleStream.put_seed(x)` for positive `x` returns without
error and leaves the whole generator state (hence `get_seed`) unchanged; for
`x ≤ 0` it raises. -/
theorem single_put_seed_noop (g : MarcianiSingleStream) (x : Int) :
    (0 < x → g.put_seed x = .ok g ∧
      (g.put_seed x).map MarcianiSingleStream.get_seed = .ok g.get_seed) ∧
      (x ≤ 0 → (g.put_seed x).isOk = false) := by
  constructor
  · intro hx
    have h : g.put_seed x = .ok g := by
      unfold MarcianiSingleStream.put_seed
      rw [if_pos hx]
    exact ⟨h, by rw [h]; rfl⟩
  · intro hx
    unfold MarcianiSingleStream.put_seed
    rw [if_neg (by omega)]
    rfl

def single_w : MarcianiSingleStream :=
  { iseed := 1, seed := 42, modulus := DEFAULT_MODULUS, multiplier := DEFAULT_MULTIPLIER }

theorem single_put_seed_noop_witness :
    (single_w.put_seed 5 = .ok single_w ∧
      (single_w.put_seed 5).map MarcianiSingleStream.get_seed = .ok single_w.get_seed) ∧
      (single_w.put_seed (-3)).isOk = false :=
  ⟨(single_put_seed_noop single_w 5).1 (by decide),
    (single_put_seed_noop single_w (-3)).2 (by decide)⟩

/-! ## Event model and next-event calendar (`core/simulation/model/calendar.py`) -/

/-- Modelled from the spec: the action component of an event type
(`core/simulation/model/scope.py` is not under the sources). -/
inductive ActionKind where
  | ARRIVAL
  | COMPLETION
deriving DecidableEq, Repr

/-- Modelled from the spec: the system-scope component of an event type. -/
inductive ScopeKind where
  | SYSTEM
  | CLOUDLET
  | CLOUD
deriving DecidableEq, Repr

/-- Modelled from the spec: the task-class component of an event type. -/
inductive TaskKind where
  | TASK_1
  | TASK_2
deriving DecidableEq, Repr

/-- Modelled from the spec: an `EventType` is the composite
`(action, scope, task class)`. -/
structure EventType where
  action : ActionKind
  scope : ScopeKind
  task : TaskKind
deriving DecidableEq, Repr

/-- Modelled from the spec: a `SimpleEvent` (`core/simulation/model/event.py`
is not under the sources) is `{type, time}`, immutable, distinguished by
object identity for cancellation; identity is modelled by the `eid` tag. -/
structure Event where
  etype : EventType
  time : ℚ
  eid : Nat
deriving DecidableEq, Repr

/-- State of a `NextEventCalendar`: the clock, the stop time (`float("inf")`
is `⊤`), the configured arrival event types, the pending-event queue (in
insertion order; the priority-queue discipline is applied on pop) and the
ignore set of unscheduled events. -/
structure Calendar where
  clock : ℚ
  stop : WithTop ℚ
  arrival_types : List EventType
  events : List Event
  ignore : List Event
deriving DecidableEq

/-- The `NextEventCalendar` constructor. -/
def Calendar.new (t_clock : ℚ) (t_stop : WithTop ℚ) (arrival_types : List EventType) :
    Calendar :=
  { clock := t_clock, stop := t_stop, arrival_types := arrival_types,
    events := [], ignore := [] }

/-- `NextEventCalendar.schedule(ev)`: rejects (returns `False`, queue
unchanged) exactly when the event's type is an arrival type and its time is
`≥` the stop time; otherwise enqueues and returns `True`.  The method is
total: it never raises. -/
def Calendar.schedule (cal : Calendar) (ev : Event) : Bool × Calendar :=
  if ev.etype ∈ cal.arrival_types ∧ cal.stop ≤ (ev.time : WithTop ℚ) then
    (false, cal)
  else
    (true, { cal with events := cal.events ++ [ev] })

/-- `NextEventCalendar.unschedule(*events)`: adds each event to the ignore
set (a Python `set`: no duplicates). -/
def Calendar.unschedule (cal : Calendar) (evs : List Event) : Calendar :=
  evs.foldl
    (fun c e => { c with ignore := if e ∈ c.ignore then c.ignore else e :: c.ignore })
    cal

/-- A pop of the underlying priority queue: the earliest-inserted event of
minimal time, plus the remaining queue (the spec mandates a deterministic
stable FIFO tie-break among equal times).  `none` on the empty queue — the
case in which the Python `PriorityQueue.get()` blocks forever. -/
def popMin : List Event → Option (Event × List Event)
  | [] => none
  | e :: es =>
    match popMin es with
    | none => some (e, es)
    | some (e', es') => if e.time ≤ e'.time then some (e, es) else some (e', e :: es')

/-- Outcome of `get_next_event`: an event, the empty result (`None`), or the
non-returning call `PriorityQueue.get()` on an empty queue. -/
inductive NextEventResult where
  | event (e : Event)
  | empty
  | blocked
deriving DecidableEq, Repr

/-- The lazy-cancellation loop of `get_next_event`: pop, and while the popped
event is in the ignore set, discard it from the set and pop again.  A pop
from an exhausted queue blocks.  The fuel is instantiated with the queue
length, which bounds the number of discards, so the fuel-exhaustion branch is
unreachable. -/
def next_loop : Nat → List Event → List Event → NextEventResult × List Event × List Event
  | 0, ignore, events =>
    match popMin events with
    | none => (.blocked, ignore, events)
    | some (c, rest) =>
      if c ∈ ignore then (.blocked, ignore.erase c, rest)
      else (.event c, ignore, rest)
  | fuel + 1, ignore, events =>
    match popMin events with
    | none => (.blocked, ignore, events)
    | some (c, rest) =>
      if c ∈ ignore then next_loop fuel (ignore.erase c) rest
      else (.event c, ignore, rest)

/-- `NextEventCalendar.get_next_event()`: `None` if the queue is empty,
otherwise the lazy-cancellation loop; on success the clock is advanced to the
returned event's time. -/
def Calendar.get_next_event (cal : Calendar) : NextEventResult × Calendar :=
  if cal.events.isEmpty then (.empty, cal)
  else
    match next_loop cal.events.length cal.ignore cal.events with
    | (.event e, ig, rest) =>
      (.event e, { cal with clock := e.time, events := rest, ignore := ig })
    | (r, ig, rest) => (r, { cal with events := rest, ignore := ig })

/-- C5: `schedule` returns `False` with the queue untouched exactly when the
event's type is a configured arrival type and its time is `≥` the horizon; in
every other case it appends the event to the queue and returns `True`.  (The
embedding of `schedule` is total, reflecting that the method never raises.) -/
theorem schedule_spec (cal : Calendar) (ev : Event) :
    ((cal.schedule ev).1 = false ∧ (cal.schedule ev).2 = cal ↔
        ev.etype ∈ cal.arrival_types ∧ cal.stop ≤ (ev.time : WithTop ℚ)) ∧
      ((cal.schedule ev).1 = true ∧
          (cal.schedule ev).2 = { cal with events := cal.events ++ [ev] } ↔
        ¬(ev.etype ∈ cal.arrival_types ∧ cal.stop ≤ (ev.time : WithTop ℚ))) := by
  unfold Calendar.schedule
  split
  · constructor
    · constructor
      · intro _
        assumption
      · exact fun _ => ⟨rfl, rfl⟩
    · constructor
      · rintro ⟨h, -⟩
        cases h
      · intro h
        exact absurd (by assumption) h
  · constructor
    · constructor
      · rintro ⟨h, -⟩
        cases h
      · intro h
        exact absurd h (by assumption)
    · constructor
      · intro _
        assumption
      · exact fun _ => ⟨rfl, rfl⟩

def c1_event : Event :=
  { etype := { action := .ARRIVAL, scope := .SYSTEM, task := .TASK_1 }, time := 1, eid := 0 }

/-- A calendar holding exactly one event, which has been unscheduled. -/
def c1_calendar : Calendar :=
  (((Calendar.new 0 ⊤ []).schedule c1_event).2).unschedule [c1_event]

/-- C1 (failing case): on a calendar whose queue holds only a cancelled event,
`get_next_event` discards the cancelled event and then pops again from the
now-empty queue — the blocking `PriorityQueue.get()` call — instead of
returning the empty result `None` that the claim (and the method docstring)
promise. -/
theorem get_next_event_blocked :
    (c1_calendar.get_next_event).1 = NextEventResult.blocked ∧
      NextEventResult.blocked ≠ NextEventResult.empty := by
  exact ⟨by decide, by decide⟩

/-! ## Task generator stream discipline (`core/simulation/model/taskgen.py`) -/

def STREAM_ARRIVAL_TYPE : Nat := 100

def STREAM_ARRIVAL_TIME : Nat := 101

/-- `SimpleTaskgen._generate_exponential`: selects `STREAM_ARRIVAL_TYPE`, draws
`u` (which decides the task class), then draws `u2` (which yields the
inter-arrival time) with no further stream selection in between.  The task
class and event time are functions of the two uniform draws; alongside the
final generator state, this embedding returns each draw paired with the
stream index that was active when it was taken. -/
def generate_exponential_draws (g : MultiStream) :
    Except String (MultiStream × (Nat × Int) × (Nat × Int)) := do
  let g1 ← g.select_stream STREAM_ARRIVAL_TYPE
  let (g2, u) := g1.rnd
  let (g3, u2) := g2.rnd
  return (g3, (g1.stream, u), (g2.stream, u2))

/-- The pair of stream indices on which the two draws of
`_generate_exponential` are taken. -/
def draw_streams (g : MultiStream) : Option (Nat × Nat) :=
  match generate_exponential_draws g with
  | .ok (_, (s1, _), (s2, _)) => some (s1, s2)
  | .error _ => none

/-- C4 (divergence): both uniform draws of `_generate_exponential` are taken
on `STREAM_ARRIVAL_TYPE` — the dedicated time stream `STREAM_ARRIVAL_TIME`
(a distinct index) is never selected, and its seed is untouched by the call. -/
theorem generate_exponential_streams :
    ((MultiStream.new DEFAULT_ISEED DEFAULT_MODULUS DEFAULT_MULTIPLIER DEFAULT_STREAMS
          DEFAULT_JUMPER).toOption.bind draw_streams
        = some (STREAM_ARRIVAL_TYPE, STREAM_ARRIVAL_TYPE) ∧
      STREAM_ARRIVAL_TYPE ≠ STREAM_ARRIVAL_TIME) ∧
      ∀ (g g3 : MultiStream) (d1 d2 : Nat × Int), g.init = true →
        generate_exponential_draws g = .ok (g3, d1, d2) →
        d1.1 = d2.1 ∧ g3.seeds.get? STREAM_ARRIVAL_TIME = g.seeds.get? STREAM_ARRIVAL_TIME := by
  refine ⟨⟨by decide, by decide⟩, ?_⟩
  intro g g3 d1 d2 hinit hok
  have hsel : g.select_stream STREAM_ARRIVAL_TYPE =
      .ok { g with stream := STREAM_ARRIVAL_TYPE % g.streams } := by
    unfold MultiStream.select_stream
    rw [if_neg]
    intro hcon
    rw [hinit] at hcon
    exact absurd hcon.1 (by decide)
  rw [show generate_exponential_draws g =
      (g.select_stream STREAM_ARRIVAL_TYPE).bind
        (fun g1 => .ok ((g1.rnd.1.rnd.1 : MultiStream), (g1.stream, g1.rnd.2),
          (g1.rnd.1.stream, g1.rnd.1.rnd.2))) from rfl, hsel] at hok
  cases hok
  have hne : STREAM_ARRIVAL_TYPE % g.streams ≠ STREAM_ARRIVAL_TIME := by
    have h100 : STREAM_ARRIVAL_TYPE % g.streams ≤ STREAM_ARRIVAL_TYPE := Nat.mod_le _ _
    intro hcon
    rw [hcon] at h100
    exact absurd h100 (by decide)
  refine ⟨rfl, ?_⟩
  show (_ : MultiStream).seeds.get? STREAM_ARRIVAL_TIME = _
  rw [(rnd_fields _).2.2.2, (rnd_fields _).2.2.2]
  show ((g.seeds.set (STREAM_ARRIVAL_TYPE % g.streams) _).set
      (STREAM_ARRIVAL_TYPE % g.streams) _).get? STREAM_ARRIVAL_TIME = _
  rw [List.get?_set_ne _ _ hne, List.get?_set_ne _ _ hne]

def gen_w4 : MultiStream :=
  { iseed := 1, modulus := DEFAULT_MODULUS, multiplier := DEFAULT_MULTIPLIER,
    streams := 256, jumper := DEFAULT_JUMPER, stream := 0, init := true,
    seeds := [3, 4] }

def gen_w4_final : MultiStream := { gen_w4 with stream := 100 }

theorem generate_exponential_streams_witness :
    ((100 : Nat), DEFAULT_MODULUS).1 = ((100 : Nat), DEFAULT_MODULUS).1 ∧
      gen_w4_final.seeds.get? STREAM_ARRIVAL_TIME = gen_w4.seeds.get? STREAM_ARRIVAL_TIME :=
  generate_exponential_streams.2 gen_w4 gen_w4_final
    (100, DEFAULT_MODULUS) (100, DEFAULT_MODULUS) (by decide)
    (except_ok_of_toOption _ _ (by decide))

/-! ## Cloudlet/Cloud system (`core/simulations/cloud/model/system.py`) -/

/-- Modelled from the spec: `SimpleCloudLet`
(`core/simulations/cloud/model/cloudlet.py` is not under the sources).  It
tracks per-class occupancy, the admission parameters `n_servers` and
`threshold`, and the pending completion events of its in-service type-2
tasks; sampling a service duration is modelled as consuming the head of an
explicit duration supply, and fresh event identities come from a counter. -/
structure SimpleCloudLet where
  n_servers : Nat
  threshold : Nat
  n_1 : Int
  n_2 : Int
  pending_2 : List Event
  svc_1 : List ℚ
  svc_2 : List ℚ
  next_id : Nat
deriving DecidableEq, Repr

/-- Modelled from the spec: Cloudlet admission of a type-1 task — occupancy
up by one, completion event at `t + duration`. -/
def SimpleCloudLet.submit_arrival_task_1 (c : SimpleCloudLet) (t : ℚ) :
    Event × SimpleCloudLet :=
  let e : Event :=
    { etype := { action := .COMPLETION, scope := .CLOUDLET, task := .TASK_1 },
      time := t + c.svc_1.headD 0, eid := c.next_id }
  (e, { c with n_1 := c.n_1 + 1, svc_1 := c.svc_1.tail, next_id := c.next_id + 1 })

/-- Modelled from the spec: Cloudlet admission of a type-2 task; its pending
completion event is recorded so that a later preemption can cancel it. -/
def SimpleCloudLet.submit_arrival_task_2 (c : SimpleCloudLet) (t : ℚ) :
    Event × SimpleCloudLet :=
  let e : Event :=
    { etype := { action := .COMPLETION, scope := .CLOUDLET, task := .TASK_2 },
      time := t + c.svc_2.headD 0, eid := c.next_id }
  (e, { c with
        n_2 := c.n_2 + 1, pending_2 := c.pending_2 ++ [e],
        svc_2 := c.svc_2.tail, next_id := c.next_id + 1 })

/-- Modelled from the spec: removal (preemption) of one in-service type-2
task — occupancy down by one; the removed task's pending completion event is
returned so the caller can cancel it.  The source does not fix which type-2
occupant is chosen; the earliest-admitted one is used here. -/
def SimpleCloudLet.submit_removal_task_2 (c : SimpleCloudLet) (_t : ℚ) :
    Option Event × SimpleCloudLet :=
  (c.pending_2.head?, { c with n_2 := c.n_2 - 1, pending_2 := c.pending_2.tail })

/-- Modelled from the spec: type-1 completion — occupancy down by one. -/
def SimpleCloudLet.submit_completion_task_1 (c : SimpleCloudLet) (_t : ℚ) :
    SimpleCloudLet :=
  { c with n_1 := c.n_1 - 1 }

/-- Modelled from the spec: type-2 completion — occupancy down by one; the
completing event (recognized by its time) stops being pending. -/
def SimpleCloudLet.submit_completion_task_2 (c : SimpleCloudLet) (t : ℚ) :
    SimpleCloudLet :=
  { c with
    n_2 := c.n_2 - 1,
    pending_2 := c.pending_2.eraseP (fun e => decide (e.time = t)) }

/-- Modelled from the spec: `SimpleCloud`
(`core/simulations/cloud/model/cloud.py` is not under the sources).  The
Cloud has unbounded capacity, per-class service-duration supplies and a
setup-delay supply for tasks restarted or routed there. -/
structure SimpleCloud where
  n_1 : Int
  n_2 : Int
  svc_1 : List ℚ
  svc_2 : List ℚ
  t_setup : List ℚ
  next_id : Nat
deriving DecidableEq, Repr

/-- Modelled from the spec: Cloud admission of a type-1 task. -/
def SimpleCloud.submit_arrival_task_1 (c : SimpleCloud) (t : ℚ) :
    Event × SimpleCloud :=
  let e : Event :=
    { etype := { action := .COMPLETION, scope := .CLOUD, task := .TASK_1 },
      time := t + c.svc_1.headD 0, eid := c.next_id }
  (e, { c with n_1 := c.n_1 + 1, svc_1 := c.svc_1.tail, next_id := c.next_id + 1 })

/-- Modelled from the spec: Cloud admission of a type-2 task, which incurs a
setup delay before service. -/
def SimpleCloud.submit_arrival_task_2 (c : SimpleCloud) (t : ℚ) :
    Event × SimpleCloud :=
  let e : Event :=
    { etype := { action := .COMPLETION, scope := .CLOUD, task := .TASK_2 },
      time := t + c.t_setup.headD 0 + c.svc_2.headD 0, eid := c.next_id }
  (e, { c with
        n_2 := c.n_2 + 1, svc_2 := c.svc_2.tail,
        t_setup := c.t_setup.tail, next_id := c.next_id + 1 })

/-- Modelled from the spec: restart on the Cloud of a type-2 task preempted
from the Cloudlet, with a freshly sampled setup time; returns the
restart-completion event. -/
def SimpleCloud.submit_restart_task_2 (c : SimpleCloud) (t : ℚ) :
    Event × SimpleCloud :=
  let e : Event :=
    { etype := { action := .COMPLETION, scope := .CLOUD, task := .TASK_2 },
      time := t + c.t_setup.headD 0 + c.svc_2.headD 0, eid := c.next_id }
  (e, { c with
        n_2 := c.n_2 + 1, svc_2 := c.svc_2.tail,
        t_setup := c.t_setup.tail, next_id := c.next_id + 1 })

/-- Modelled from the spec: Cloud type-1 completion. -/
def SimpleCloud.submit_completion_task_1 (c : SimpleCloud) (_t : ℚ) : SimpleCloud :=
  { c with n_1 := c.n_1 - 1 }

/-- Modelled from the spec: Cloud type-2 completion. -/
def SimpleCloud.submit_completion_task_2 (c : SimpleCloud) (_t : ℚ) : SimpleCloud :=
  { c with n_2 := c.n_2 - 1 }

/-- State of `SimpleCloudletCloudSystem`: the two tiers, the per-class
in-service counts `n_1`, `n_2`, the arrival/served statistics, and the meta
fields used for utilization/throughput.  The `SimpleSampleStatistic`
response-time accumulator (not under the sources) is modelled from the spec
as the list of added values. -/
structure SimpleCloudletCloudSystem where
  cloudlet : SimpleCloudLet
  cloud : SimpleCloud
  n_1 : Int
  n_2 : Int
  n_arrival_1 : Int
  n_arrival_2 : Int
  n_served_1 : Int
  n_served_2 : Int
  t_last_event : ℚ
  t_last_completion : ℚ
  area_service : ℚ
  response_time : List ℚ
deriving DecidableEq, Repr

/-- The `SimpleCloudletCloudSystem` constructor: empty tiers and zeroed
counters, with the given admission parameters and duration supplies. -/
def SimpleCloudletCloudSystem.new (n_servers threshold : Nat)
    (cdl_svc_1 cdl_svc_2 cld_svc_1 cld_svc_2 cld_setup : List ℚ) :
    SimpleCloudletCloudSystem :=
  { cloudlet := { n_servers := n_servers, threshold := threshold, n_1 := 0, n_2 := 0,
                  pending_2 := [], svc_1 := cdl_svc_1, svc_2 := cdl_svc_2, next_id := 0 },
    cloud := { n_1 := 0, n_2 := 0, svc_1 := cld_svc_1, svc_2 := cld_svc_2,
               t_setup := cld_setup, next_id := 0 },
    n_1 := 0, n_2 := 0, n_arrival_1 := 0, n_arrival_2 := 0,
    n_served_1 := 0, n_served_2 := 0,
    t_last_event := 0, t_last_completion := 0, area_service := 0,
    response_time := [] }

/-- The state/statistics/meta prelude shared by both arrival methods:
`n_k += 1`, `n_arrival_k += 1`, then the busy-area and last-event-time
update. -/
def SimpleCloudletCloudSystem.arrival_prelude (s : SimpleCloudletCloudSystem)
    (event_time : ℚ) (n_1' n_2' n_arrival_1' n_arrival_2' : Int) :
    SimpleCloudletCloudSystem :=
  { s with
    n_1 := n_1', n_2 := n_2', n_arrival_1 := n_arrival_1',
    n_arrival_2 := n_arrival_2',
    area_service := if 0 < n_1' + n_2' then s.area_service + (event_time - s.t_last_event)
      else s.area_service,
    t_last_event := event_time }

/-- `SimpleCloudletCloudSystem.submit_arrival_task_1(event_time)`: the routing
decision of the source, in order — Cloudlet type-1 slots full → Cloud; total
Cloudlet occupancy below threshold → Cloudlet; a type-2 task present →
preempt it (cancel its completion, restart it on the Cloud) and admit to the
Cloudlet; otherwise admit to the Cloudlet.  Returns `(c1, c2, c3)`:
the new completion event of the admitted task, the restart-completion event
(if any) and the cancelled completion event (if any). -/
def SimpleCloudletCloudSystem.submit_arrival_task_1 (s : SimpleCloudletCloudSystem)
    (event_time : ℚ) :
    (Event × Option Event × Option Event) × SimpleCloudletCloudSystem :=
  let s := s.arrival_prelude event_time (s.n_1 + 1) s.n_2 (s.n_arrival_1 + 1) s.n_arrival_2
  if s.cloudlet.n_1 = (s.cloudlet.n_servers : Int) then
    let (e, cld) := s.cloud.submit_arrival_task_1 event_time
    ((e, none, none),
      { s with cloud := cld, response_time := s.response_time ++ [e.time - event_time] })
  else if s.cloudlet.n_1 + s.cloudlet.n_2 < (s.cloudlet.threshold : Int) then
    let (e, cdl) := s.cloudlet.submit_arrival_task_1 event_time
    ((e, none, none),
      { s with cloudlet := cdl, response_time := s.response_time ++ [e.time - event_time] })
  else if 0 < s.cloudlet.n_2 then
    let (ign, cdl1) := s.cloudlet.submit_removal_task_2 event_time
    let (er, cld) := s.cloud.submit_restart_task_2 event_time
    let (e, cdl2) := cdl1.submit_arrival_task_1 event_time
    ((e, some er, ign),
      { s with
        cloudlet := cdl2, cloud := cld,
        response_time := s.response_time ++ [e.time - event_time] })
  else
    let (e, cdl) := s.cloudlet.submit_arrival_task_1 event_time
    ((e, none, none),
      { s with cloudlet := cdl, response_time := s.response_time ++ [e.time - event_time] })

/-- `SimpleCloudletCloudSystem.submit_arrival_task_2(event_time)`: Cloudlet at
or above threshold → Cloud, else Cloudlet. -/
def SimpleCloudletCloudSystem.submit_arrival_task_2 (s : SimpleCloudletCloudSystem)
    (event_time : ℚ) : Event × SimpleCloudletCloudSystem :=
  let s := s.arrival_prelude event_time s.n_1 (s.n_2 + 1) s.n_arrival_1 (s.n_arrival_2 + 1)
  if (s.cloudlet.threshold : Int) ≤ s.cloudlet.n_1 + s.cloudlet.n_2 then
    let (e, cld) := s.cloud.submit_arrival_task_2 event_time
    (e, { s with cloud := cld, response_time := s.response_time ++ [e.time - event_time] })
  else
    let (e, cdl) := s.cloudlet.submit_arrival_task_2 event_time
    (e, { s with cloudlet := cdl, response_time := s.response_time ++ [e.time - event_time] })

/-- The state/statistics/meta prelude shared by the four completion methods. -/
def SimpleCloudletCloudSystem.completion_prelude (s : SimpleCloudletCloudSystem)
    (event_time : ℚ) (n_1' n_2' n_served_1' n_served_2' : Int) :
    SimpleCloudletCloudSystem :=
  { s with
    n_1 := n_1', n_2 := n_2', n_served_1 := n_served_1',
    n_served_2 := n_served_2',
    area_service := if 0 < n_1' + n_2' then s.area_service + (event_time - s.t_last_event)
      else s.area_service,
    t_last_event := event_time, t_last_completion := event_time }

/-- `submit_completion_cloudlet_task_1`. -/
def SimpleCloudletCloudSystem.submit_completion_cloudlet_task_1
    (s : SimpleCloudletCloudSystem) (event_time : ℚ) : SimpleCloudletCloudSystem :=
  let s := s.completion_prelude event_time (s.n_1 - 1) s.n_2 (s.n_served_1 + 1) s.n_served_2
  { s with cloudlet := s.cloudlet.submit_completion_task_1 event_time }

/-- `submit_completion_cloudlet_task_2`. -/
def SimpleCloudletCloudSystem.submit_completion_cloudlet_task_2
    (s : SimpleCloudletCloudSystem) (event_time : ℚ) : SimpleCloudletCloudSystem :=
  let s := s.completion_prelude event_time s.n_1 (s.n_2 - 1) s.n_served_1 (s.n_served_2 + 1)
  { s with cloudlet := s.cloudlet.submit_completion_task_2 event_time }

/-- `submit_completion_cloud_task_1`. -/
def SimpleCloudletCloudSystem.submit_completion_cloud_task_1
    (s : SimpleCloudletCloudSystem) (event_time : ℚ) : SimpleCloudletCloudSystem :=
  let s := s.completion_prelude event_time (s.n_1 - 1) s.n_2 (s.n_served_1 + 1) s.n_served_2
  { s with cloud := s.cloud.submit_completion_task_1 event_time }

/-- `submit_completion_cloud_task_2`. -/
def SimpleCloudletCloudSystem.submit_completion_cloud_task_2
    (s : SimpleCloudletCloudSystem) (event_time : ℚ) : SimpleCloudletCloudSystem :=
  let s := s.completion_prelude event_time s.n_1 (s.n_2 - 1) s.n_served_1 (s.n_served_2 + 1)
  { s with cloud := s.cloud.submit_completion_task_2 event_time }

/-- C2: with Cloudlet type-1 occupancy strictly below `n_servers`, total
Cloudlet occupancy at least the threshold and at least one type-2 task in the
Cloudlet, `submit_arrival_task_1` returns exactly three results: a new
Cloudlet completion event for the admitted type-1 task, a new Cloud
restart-completion event for the preempted type-2 task, and the cancelled
original completion event of that type-2 task. -/
theorem submit_arrival_task_1_preemption (s : SimpleCloudletCloudSystem) (t : ℚ)
    (h1 : s.cloudlet.n_1 < (s.cloudlet.n_servers : Int))
    (h2 : (s.cloudlet.threshold : Int) ≤ s.cloudlet.n_1 + s.cloudlet.n_2)
    (h3 : 0 < s.cloudlet.n_2)
    (h4 : s.cloudlet.pending_2 ≠ []) :
    ∃ e1 e2 e3 : Event,
      (s.submit_arrival_task_1 t).1 = (e1, some e2, some e3) ∧
      e1.etype = { action := .COMPLETION, scope := .CLOUDLET, task := .TASK_1 } ∧
      e1.time = t + s.cloudlet.svc_1.headD 0 ∧
      e2.etype = { action := .COMPLETION, scope := .CLOUD, task := .TASK_2 } ∧
      e2.time = t + s.cloud.t_setup.headD 0 + s.cloud.svc_2.headD 0 ∧
      s.cloudlet.pending_2.head? = some e3 := by
  have hc1 : ¬ s.cloudlet.n_1 = (s.cloudlet.n_servers : Int) := by omega
  have hc2 : ¬ s.cloudlet.n_1 + s.cloudlet.n_2 < (s.cloudlet.threshold : Int) := by omega
  cases hp : s.cloudlet.pending_2 with
  | nil => exact absurd hp h4
  | cons a l =>
    refine ⟨{ etype := { action := .COMPLETION, scope := .CLOUDLET, task := .TASK_1 },
              time := t + s.cloudlet.svc_1.headD 0, eid := s.cloudlet.next_id },
      { etype := { action := .COMPLETION, scope := .CLOUD, task := .TASK_2 },
        time := t + s.cloud.t_setup.headD 0 + s.cloud.svc_2.headD 0, eid := s.cloud.next_id },
      a, ?_, rfl, rfl, rfl, rfl, rfl⟩
    simp only [SimpleCloudletCloudSystem.submit_arrival_task_1,
      SimpleCloudletCloudSystem.arrival_prelude,
      SimpleCloudLet.submit_removal_task_2, SimpleCloud.submit_restart_task_2,
      SimpleCloudLet.submit_arrival_task_1]
    rw [if_neg hc1, if_neg hc2, if_pos h3, hp]
    rfl

def sys_w2 : SimpleCloudletCloudSystem :=
  { cloudlet := { n_servers := 2, threshold := 2, n_1 := 1, n_2 := 1,
                  pending_2 :=
                    [{ etype := { action := .COMPLETION, scope := .CLOUDLET, task := .TASK_2 },
                       time := 9, eid := 3 }],
                  svc_1 := [2], svc_2 := [], next_id := 4 },
    cloud := { n_1 := 0, n_2 := 0, svc_1 := [], svc_2 := [5], t_setup := [1], next_id := 0 },
    n_1 := 1, n_2 := 1, n_arrival_1 := 1, n_arrival_2 := 1,
    n_served_1 := 0, n_served_2 := 0,
    t_last_event := 0, t_last_completion := 0, area_service := 0, response_time := [] }

theorem submit_arrival_task_1_preemption_witness :
    ∃ e1 e2 e3 : Event,
      (sys_w2.submit_arrival_task_1 4).1 = (e1, some e2, some e3) ∧
      e1.etype = { action := .COMPLETION, scope := .CLOUDLET, task := .TASK_1 } ∧
      e1.time = 4 + sys_w2.cloudlet.svc_1.headD 0 ∧
      e2.etype = { action := .COMPLETION, scope := .CLOUD, task := .TASK_2 } ∧
      e2.time = 4 + sys_w2.cloud.t_setup.headD 0 + sys_w2.cloud.svc_2.headD 0 ∧
      sys_w2.cloudlet.pending_2.head? = some e3 :=
  submit_arrival_task_1_preemption sys_w2 4 (by decide) (by decide) (by decide) (by decide)

/-! ## Occupancy conservation over interleavings (C6) -/

/-- One submission to the system: an arrival or one of the four completion
variants, each carrying its occurrence time. -/
inductive SystemOp where
  | arrival_1 (t : ℚ)
  | arrival_2 (t : ℚ)
  | completion_cloudlet_1 (t : ℚ)
  | completion_cloudlet_2 (t : ℚ)
  | completion_cloud_1 (t : ℚ)
  | completion_cloud_2 (t : ℚ)
deriving DecidableEq, Repr

/-- Dispatch one submission to the corresponding system method. -/
def SimpleCloudletCloudSystem.apply (s : SimpleCloudletCloudSystem) :
    SystemOp → SimpleCloudletCloudSystem
  | .arrival_1 t => (s.submit_arrival_task_1 t).2
  | .arrival_2 t => (s.submit_arrival_task_2 t).2
  | .completion_cloudlet_1 t => s.submit_completion_cloudlet_task_1 t
  | .completion_cloudlet_2 t => s.submit_completion_cloudlet_task_2 t
  | .completion_cloud_1 t => s.submit_completion_cloud_task_1 t
  | .completion_cloud_2 t => s.submit_completion_cloud_task_2 t

/-- Process a sequence of submissions. -/
def SimpleCloudletCloudSystem.run (s : SimpleCloudletCloudSystem) :
    List SystemOp → SimpleCloudletCloudSystem
  | [] => s
  | op :: ops => (s.apply op).run ops

/-- Number of class-1 arrivals in a submission sequence. -/
def ops_arr_1 : List SystemOp → Int
  | [] => 0
  | .arrival_1 _ :: ops => ops_arr_1 ops + 1
  | _ :: ops => ops_arr_1 ops

/-- Number of class-2 arrivals in a submission sequence. -/
def ops_arr_2 : List SystemOp → Int
  | [] => 0
  | .arrival_2 _ :: ops => ops_arr_2 ops + 1
  | _ :: ops => ops_arr_2 ops

/-- Number of class-1 completions (either tier) in a submission sequence. -/
def ops_comp_1 : List SystemOp → Int
  | [] => 0
  | .completion_cloudlet_1 _ :: ops => ops_comp_1 ops + 1
  | .completion_cloud_1 _ :: ops => ops_comp_1 ops + 1
  | _ :: ops => ops_comp_1 ops

/-- Number of class-2 completions (either tier) in a submission sequence. -/
def ops_comp_2 : List SystemOp → Int
  | [] => 0
  | .completion_cloudlet_2 _ :: ops => ops_comp_2 ops + 1
  | .completion_cloud_2 _ :: ops => ops_comp_2 ops + 1
  | _ :: ops => ops_comp_2 ops

/-- Every completion in the sequence is matched by a prior arrival of the same
class: starting from `k1` (resp. `k2`) outstanding class-1 (class-2) tasks, a
completion is only submitted while the outstanding count is positive. -/
def matched_from : Int → Int → List SystemOp → Bool
  | _, _, [] => true
  | k1, k2, .arrival_1 _ :: ops => matched_from (k1 + 1) k2 ops
  | k1, k2, .arrival_2 _ :: ops => matched_from k1 (k2 + 1) ops
  | k1, k2, .completion_cloudlet_1 _ :: ops => decide (0 < k1) && matched_from (k1 - 1) k2 ops
  | k1, k2, .completion_cloud_1 _ :: ops => decide (0 < k1) && matched_from (k1 - 1) k2 ops
  | k1, k2, .completion_cloudlet_2 _ :: ops => decide (0 < k2) && matched_from k1 (k2 - 1) ops
  | k1, k2, .completion_cloud_2 _ :: ops => decide (0 < k2) && matched_from k1 (k2 - 1) ops

/-- The bookkeeping invariant: the system counters and the per-tier occupancy
sums agree with the outstanding per-class counts. -/
def counts_ok (s : SimpleCloudletCloudSystem) (k1 k2 : Int) : Prop :=
  s.n_1 = k1 ∧ s.n_2 = k2 ∧
    s.cloudlet.n_1 + s.cloud.n_1 = k1 ∧ s.cloudlet.n_2 + s.cloud.n_2 = k2

theorem apply_arrival_1_counts (s : SimpleCloudletCloudSystem) (k1 k2 : Int) (t : ℚ)
    (h : counts_ok s k1 k2) : counts_ok (s.apply (.arrival_1 t)) (k1 + 1) k2 := by
  obtain ⟨e1, e2, e3, e4⟩ := h
  unfold SimpleCloudletCloudSystem.apply SimpleCloudletCloudSystem.submit_arrival_task_1
  simp only [SimpleCloudletCloudSystem.arrival_prelude,
    SimpleCloud.submit_arrival_task_1, SimpleCloudLet.submit_arrival_task_1,
    SimpleCloudLet.submit_removal_task_2, SimpleCloud.submit_restart_task_2]
  split_ifs <;> exact ⟨by simp; omega, by simp; omega, by simp; omega, by simp; omega⟩

theorem apply_arrival_2_counts (s : SimpleCloudletCloudSystem) (k1 k2 : Int) (t : ℚ)
    (h : counts_ok s k1 k2) : counts_ok (s.apply (.arrival_2 t)) k1 (k2 + 1) := by
  obtain ⟨e1, e2, e3, e4⟩ := h
  unfold SimpleCloudletCloudSystem.apply SimpleCloudletCloudSystem.submit_arrival_task_2
  simp only [SimpleCloudletCloudSystem.arrival_prelude,
    SimpleCloud.submit_arrival_task_2, SimpleCloudLet.submit_arrival_task_2]
  split_ifs <;> exact ⟨by simp; omega, by simp; omega, by simp; omega, by simp; omega⟩

theorem apply_completion_cloudlet_1_counts (s : SimpleCloudletCloudSystem) (k1 k2 : Int)
    (t : ℚ) (h : counts_ok s k1 k2) :
    counts_ok (s.apply (.completion_cloudlet_1 t)) (k1 - 1) k2 := by
  obtain ⟨e1, e2, e3, e4⟩ := h
  unfold SimpleCloudletCloudSystem.apply
    SimpleCloudletCloudSystem.submit_completion_cloudlet_task_1
  simp only [SimpleCloudletCloudSystem.completion_prelude,
    SimpleCloudLet.submit_completion_task_1]
  exact ⟨by simp; omega, by simp; omega, by simp; omega, by simp; omega⟩

theorem apply_completion_cloudlet_2_counts (s : SimpleCloudletCloudSystem) (k1 k2 : Int)
    (t : ℚ) (h : counts_ok s k1 k2) :
    counts_ok (s.apply (.completion_cloudlet_2 t)) k1 (k2 - 1) := by
  obtain ⟨e1, e2, e3, e4⟩ := h
  unfold SimpleCloudletCloudSystem.apply
    SimpleCloudletCloudSystem.submit_completion_cloudlet_task_2
  simp only [SimpleCloudletCloudSystem.completion_prelude,
    SimpleCloudLet.submit_completion_task_2]
  exact ⟨by simp; omega, by simp; omega, by simp; omega, by simp; omega⟩

theorem apply_completion_cloud_1_counts (s : SimpleCloudletCloudSystem) (k1 k2 : Int)
    (t : ℚ) (h : counts_ok s k1 k2) :
    counts_ok (s.apply (.completion_cloud_1 t)) (k1 - 1) k2 := by
  obtain ⟨e1, e2, e3, e4⟩ := h
  unfold SimpleCloudletCloudSystem.apply
    SimpleCloudletCloudSystem.submit_completion_cloud_task_1
  simp only [SimpleCloudletCloudSystem.completion_prelude,
    SimpleCloud.submit_completion_task_1]
  exact ⟨by simp; omega, by simp; omega, by simp; omega, by simp; omega⟩

theorem apply_completion_cloud_2_counts (s : SimpleCloudletCloudSystem) (k1 k2 : Int)
    (t : ℚ) (h : counts_ok s k1 k2) :
    counts_ok (s.apply (.completion_cloud_2 t)) k1 (k2 - 1) := by
  obtain ⟨e1, e2, e3, e4⟩ := h
  unfold SimpleCloudletCloudSystem.apply
    SimpleCloudletCloudSystem.submit_completion_cloud_task_2
  simp only [SimpleCloudletCloudSystem.completion_prelude,
    SimpleCloud.submit_completion_task_2]
  exact ⟨by simp; omega, by simp; omega, by simp; omega, by simp; omega⟩

theorem counts_ok_congr (s : SimpleCloudletCloudSystem) (a b a' b' : Int)
    (h : counts_ok s a b) (ha : a = a') (hb : b = b') : counts_ok s a' b' := by
  rw [← ha, ← hb]
  exact h

theorem run_counts (ops : List SystemOp) :
    ∀ (s : SimpleCloudletCloudSystem) (k1 k2 : Int), counts_ok s k1 k2 →
      0 ≤ k1 → 0 ≤ k2 → matched_from k1 k2 ops = true →
      counts_ok (s.run ops) (k1 + ops_arr_1 ops - ops_comp_1 ops)
          (k2 + ops_arr_2 ops - ops_comp_2 ops) ∧
        0 ≤ k1 + ops_arr_1 ops - ops_comp_1 ops ∧
        0 ≤ k2 + ops_arr_2 ops - ops_comp_2 ops := by
  induction ops with
  | nil =>
    intro s k1 k2 h hk1 hk2 _
    exact ⟨counts_ok_congr s k1 k2 _ _ h (by simp only [ops_arr_1, ops_comp_1] <;> omega)
        (by simp only [ops_arr_2, ops_comp_2] <;> omega),
      by simp only [ops_arr_1, ops_comp_1] <;> omega,
      by simp only [ops_arr_2, ops_comp_2] <;> omega⟩
  | cons op ops ih =>
    intro s k1 k2 h hk1 hk2 hm
    cases op with
    | arrival_1 t =>
      have hm' : matched_from (k1 + 1) k2 ops = true := hm
      obtain ⟨hc, h1, h2⟩ := ih (s.apply (.arrival_1 t)) (k1 + 1) k2
        (apply_arrival_1_counts s k1 k2 t h) (by omega) hk2 hm'
      exact ⟨counts_ok_congr _ _ _ _ _ hc (by simp only [ops_arr_1, ops_comp_1] <;> omega)
          (by simp only [ops_arr_2, ops_comp_2] <;> omega),
        by simp only [ops_arr_1, ops_comp_1] at h1 ⊢ <;> omega,
        by simp only [ops_arr_2, ops_comp_2] at h2 ⊢ <;> omega⟩
    | arrival_2 t =>
      have hm' : matched_from k1 (k2 + 1) ops = true := hm
      obtain ⟨hc, h1, h2⟩ := ih (s.apply (.arrival_2 t)) k1 (k2 + 1)
        (apply_arrival_2_counts s k1 k2 t h) hk1 (by omega) hm'
      exact ⟨counts_ok_congr _ _ _ _ _ hc (by simp only [ops_arr_1, ops_comp_1] <;> omega)
          (by simp only [ops_arr_2, ops_comp_2] <;> omega),
        by simp only [ops_arr_1, ops_comp_1] at h1 ⊢ <;> omega,
        by simp only [ops_arr_2, ops_comp_2] at h2 ⊢ <;> omega⟩
    | completion_cloudlet_1 t =>
      have hm0 : (decide (0 < k1) && matched_from (k1 - 1) k2 ops) = true := hm
      rw [Bool.and_eq_true, decide_eq_true_iff] at hm0
      obtain ⟨hc, h1, h2⟩ := ih (s.apply (.completion_cloudlet_1 t)) (k1 - 1) k2
        (apply_completion_cloudlet_1_counts s k1 k2 t h) (by omega) hk2 hm0.2
      exact ⟨counts_ok_congr _ _ _ _ _ hc (by simp only [ops_arr_1, ops_comp_1] <;> omega)
          (by simp only [ops_arr_2, ops_comp_2] <;> omega),
        by simp only [ops_arr_1, ops_comp_1] at h1 ⊢ <;> omega,
        by simp only [ops_arr_2, ops_comp_2] at h2 ⊢ <;> omega⟩
    | completion_cloudlet_2 t =>
      have hm0 : (decide (0 < k2) && matched_from k1 (k2 - 1) ops) = true := hm
      rw [Bool.and_eq_true, decide_eq_true_iff] at hm0
      obtain ⟨hc, h1, h2⟩ := ih (s.apply (.completion_cloudlet_2 t)) k1 (k2 - 1)
        (apply_completion_cloudlet_2_counts s k1 k2 t h) hk1 (by omega) hm0.2
      exact ⟨counts_ok_congr _ _ _ _ _ hc (by simp only [ops_arr_1, ops_comp_1] <;> omega)
          (by simp only [ops_arr_2, ops_comp_2] <;> omega),
        by simp only [ops_arr_1, ops_comp_1] at h1 ⊢ <;> omega,
        by simp only [ops_arr_2, ops_comp_2] at h2 ⊢ <;> omega⟩
    | completion_cloud_1 t =>
      have hm0 : (decide (0 < k1) && matched_from (k1 - 1) k2 ops) = true := hm
      rw [Bool.and_eq_true, decide_eq_true_iff] at hm0
      obtain ⟨hc, h1, h2⟩ := ih (s.apply (.completion_cloud_1 t)) (k1 - 1) k2
        (apply_completion_cloud_1_counts s k1 k2 t h) (by omega) hk2 hm0.2
      exact ⟨counts_ok_congr _ _ _ _ _ hc (by simp only [ops_arr_1, ops_comp_1] <;> omega)
          (by simp only [ops_arr_2, ops_comp_2] <;> omega),
        by simp only [ops_arr_1, ops_comp_1] at h1 ⊢ <;> omega,
        by simp only [ops_arr_2, ops_comp_2] at h2 ⊢ <;> omega⟩
    | completion_cloud_2 t =>
      have hm0 : (decide (0 < k2) && matched_from k1 (k2 - 1) ops) = true := hm
      rw [Bool.and_eq_true, decide_eq_true_iff] at hm0
      obtain ⟨hc, h1, h2⟩ := ih (s.apply (.completion_cloud_2 t)) k1 (k2 - 1)
        (apply_completion_cloud_2_counts s k1 k2 t h) hk1 (by omega) hm0.2
      exact ⟨counts_ok_congr _ _ _ _ _ hc (by simp only [ops_arr_1, ops_comp_1] <;> omega)
          (by simp only [ops_arr_2, ops_comp_2] <;> omega),
        by simp only [ops_arr_1, ops_comp_1] at h1 ⊢ <;> omega,
        by simp only [ops_arr_2, ops_comp_2] at h2 ⊢ <;> omega⟩

/-- C6: for every interleaving of arrivals and completions in which each
completion is matched by a prior arrival of its class, the in-service count
of class 1 equals the class-1 arrivals minus the class-1 completions (and the
per-tier occupancies sum to it), likewise for class 2, and neither count is
ever negative. -/
theorem occupancy_conservation (n_servers threshold : Nat)
    (cdl_svc_1 cdl_svc_2 cld_svc_1 cld_svc_2 cld_setup : List ℚ) (ops : List SystemOp)
    (hm : matched_from 0 0 ops = true) :
    (((SimpleCloudletCloudSystem.new n_servers threshold cdl_svc_1 cdl_svc_2 cld_svc_1
            cld_svc_2 cld_setup).run ops).n_1 = ops_arr_1 ops - ops_comp_1 ops ∧
        ((SimpleCloudletCloudSystem.new n_servers threshold cdl_svc_1 cdl_svc_2 cld_svc_1
            cld_svc_2 cld_setup).run ops).cloudlet.n_1 +
          ((SimpleCloudletCloudSystem.new n_servers threshold cdl_svc_1 cdl_svc_2 cld_svc_1
            cld_svc_2 cld_setup).run ops).cloud.n_1 = ops_arr_1 ops - ops_comp_1 ops ∧
        0 ≤ ops_arr_1 ops - ops_comp_1 ops) ∧
      (((SimpleCloudletCloudSystem.new n_servers threshold cdl_svc_1 cdl_svc_2 cld_svc_1
            cld_svc_2 cld_setup).run ops).n_2 = ops_arr_2 ops - ops_comp_2 ops ∧
        ((SimpleCloudletCloudSystem.new n_servers threshold cdl_svc_1 cdl_svc_2 cld_svc_1
            cld_svc_2 cld_setup).run ops).cloudlet.n_2 +
          ((SimpleCloudletCloudSystem.new n_servers threshold cdl_svc_1 cdl_svc_2 cld_svc_1
            cld_svc_2 cld_setup).run ops).cloud.n_2 = ops_arr_2 ops - ops_comp_2 ops ∧
        0 ≤ ops_arr_2 ops - ops_comp_2 ops) := by
  obtain ⟨⟨c1, c2, c3, c4⟩, h1, h2⟩ :=
    run_counts ops (SimpleCloudletCloudSystem.new n_servers threshold cdl_svc_1 cdl_svc_2
      cld_svc_1 cld_svc_2 cld_setup) 0 0
      ⟨rfl, rfl, rfl, rfl⟩ le_rfl le_rfl hm
  refine ⟨⟨?_, ?_, ?_⟩, ?_, ?_, ?_⟩ <;> omega

theorem occupancy_conservation_witness :
    (((SimpleCloudletCloudSystem.new 1 1 [1] [] [] [2] [3]).run
          [.arrival_1 0, .arrival_1 1, .completion_cloudlet_1 2]).n_1 =
        ops_arr_1 [.arrival_1 0, .arrival_1 1, .completion_cloudlet_1 2] -
          ops_comp_1 [.arrival_1 0, .arrival_1 1, .completion_cloudlet_1 2] ∧
      ((SimpleCloudletCloudSystem.new 1 1 [1] [] [] [2] [3]).run
          [.arrival_1 0, .arrival_1 1, .completion_cloudlet_1 2]).cloudlet.n_1 +
        ((SimpleCloudletCloudSystem.new 1 1 [1] [] [] [2] [3]).run
          [.arrival_1 0, .arrival_1 1, .completion_cloudlet_1 2]).cloud.n_1 =
        ops_arr_1 [.arrival_1 0, .arrival_1 1, .completion_cloudlet_1 2] -
          ops_comp_1 [.arrival_1 0, .arrival_1 1, .completion_cloudlet_1 2] ∧
      0 ≤ ops_arr_1 [.arrival_1 0, .arrival_1 1, .completion_cloudlet_1 2] -
          ops_comp_1 [.arrival_1 0, .arrival_1 1, .completion_cloudlet_1 2]) ∧
      (((SimpleCloudletCloudSystem.new 1 1 [1] [] [] [2] [3]).run
          [.arrival_1 0, .arrival_1 1, .completion_cloudlet_1 2]).n_2 =
        ops_arr_2 [.arrival_1 0, .arrival_1 1, .completion_cloudlet_1 2] -
          ops_comp_2 [.arrival_1 0, .arrival_1 1, .completion_cloudlet_1 2] ∧
      ((SimpleCloudletCloudSystem.new 1 1 [1] [] [] [2] [3]).run
          [.arrival_1 0, .arrival_1 1, .completion_cloudlet_1 2]).cloudlet.n_2 +
        ((SimpleCloudletCloudSystem.new 1 1 [1] [] [] [2] [3]).run
          [.arrival_1 0, .arrival_1 1, .completion_cloudlet_1 2]).cloud.n_2 =
        ops_arr_2 [.arrival_1 0, .arrival_1 1, .completion_cloudlet_1 2] -
          ops_comp_2 [.arrival_1 0, .arrival_1 1, .completion_cloudlet_1 2] ∧
      0 ≤ ops_arr_2 [.arrival_1 0, .arrival_1 1, .completion_cloudlet_1 2] -
          ops_comp_2 [.arrival_1 0, .arrival_1 1, .completion_cloudlet_1 2]) :=
  occupancy_conservation 1 1 [1] [] [] [2] [3]
    [.arrival_1 0, .arrival_1 1, .completion_cloudlet_1 2] (by decide)

/-! ## Batch-means statistics (`core/simulation/model/statistics.py`) -/

/-- Modelled from the spec: a batch-means accumulator (`BatchedMeasure`,
`BatchedSampleStatistic` and `BatchedSamplePathStatistic` of
`core/statistics/batch_means.py` are not under the sources).  Each owns the
growing ordered sequence of closed-batch values plus one open (in-progress)
accumulator, which is cleared to its identity value exactly when a batch is
registered or discarded. -/
structure BatchedAccumulator where
  batches : List ℚ
  current : ℚ
deriving DecidableEq, Repr

/-- Modelled from the spec: seal the open batch as one data point, append it,
reset the open accumulator. -/
def BatchedAccumulator.register_batch (a : BatchedAccumulator) : BatchedAccumulator :=
  { batches := a.batches ++ [a.current], current := 0 }

/-- Modelled from the spec: drop the open batch's partial data without
sealing it. -/
def BatchedAccumulator.discard_batch (a : BatchedAccumulator) : BatchedAccumulator :=
  { a with current := 0 }

/-- Modelled from the spec: accumulate a value into the open batch. -/
def BatchedAccumulator.add_value (a : BatchedAccumulator) (v : ℚ) : BatchedAccumulator :=
  { a with current := a.current + v }

/-- `BatchStatistics`: the simulation's statistics group — four measures, two
sample statistics, one sample-path statistic, plus the batch counter. -/
structure BatchStatistics where
  arrived : BatchedAccumulator
  completed : BatchedAccumulator
  switched : BatchedAccumulator
  service : BatchedAccumulator
  n : BatchedAccumulator
  response : BatchedAccumulator
  throughput : BatchedAccumulator
  n_batches : Nat
deriving DecidableEq, Repr

/-- The `BatchStatistics` constructor: empty accumulators, zero batches. -/
def BatchStatistics.new : BatchStatistics :=
  { arrived := { batches := [], current := 0 }, completed := { batches := [], current := 0 },
    switched := { batches := [], current := 0 }, service := { batches := [], current := 0 },
    n := { batches := [], current := 0 }, response := { batches := [], current := 0 },
    throughput := { batches := [], current := 0 }, n_batches := 0 }

/-- `BatchStatistics.register_batch()`: registers and closes the current batch
of every accumulator of the group and increments `n_batches`. -/
def BatchStatistics.register_batch (st : BatchStatistics) : BatchStatistics :=
  { arrived := st.arrived.register_batch, completed := st.completed.register_batch,
    switched := st.switched.register_batch, service := st.service.register_batch,
    n := st.n.register_batch, response := st.response.register_batch,
    throughput := st.throughput.register_batch, n_batches := st.n_batches + 1 }

/-- `BatchStatistics.discard_batch()`: discards the current batch of every
accumulator of the group; `n_batches` is unchanged. -/
def BatchStatistics.discard_batch (st : BatchStatistics) : BatchStatistics :=
  { st with
    arrived := st.arrived.discard_batch, completed := st.completed.discard_batch,
    switched := st.switched.discard_batch, service := st.service.discard_batch,
    n := st.n.discard_batch, response := st.response.discard_batch,
    throughput := st.throughput.discard_batch }

/-- One operation on the statistics group: a batch registration, a batch
discard, or the accumulation of a value into the open batch of the `i`-th
accumulator. -/
inductive BatchOp where
  | register
  | discard
  | add (i : Nat) (v : ℚ)
deriving DecidableEq, Repr

/-- Dispatch one operation on the statistics group. -/
def BatchStatistics.apply (st : BatchStatistics) : BatchOp → BatchStatistics
  | .register => st.register_batch
  | .discard => st.discard_batch
  | .add 0 v => { st with arrived := st.arrived.add_value v }
  | .add 1 v => { st with completed := st.completed.add_value v }
  | .add 2 v => { st with switched := st.switched.add_value v }
  | .add 3 v => { st with service := st.service.add_value v }
  | .add 4 v => { st with n := st.n.add_value v }
  | .add 5 v => { st with response := st.response.add_value v }
  | .add 6 v => { st with throughput := st.throughput.add_value v }
  | .add _ _ => st

/-- Process a sequence of operations on the statistics group. -/
def BatchStatistics.run (st : BatchStatistics) : List BatchOp → BatchStatistics
  | [] => st
  | op :: ops => (st.apply op).run ops

/-- `n_batches` equals the number of sealed batches of every accumulator in
the group. -/
def batch_inv (st : BatchStatistics) : Prop :=
  st.n_batches = st.arrived.batches.length ∧ st.n_batches = st.completed.batches.length ∧
    st.n_batches = st.switched.batches.length ∧ st.n_batches = st.service.batches.length ∧
    st.n_batches = st.n.batches.length ∧ st.n_batches = st.response.batches.length ∧
    st.n_batches = st.throughput.batches.length

theorem apply_batch_inv (st : BatchStatistics) (op : BatchOp) (h : batch_inv st) :
    batch_inv (st.apply op) := by
  obtain ⟨h1, h2, h3, h4, h5, h6, h7⟩ := h
  cases op with
  | register =>
    refine ⟨?_, ?_, ?_, ?_, ?_, ?_, ?_⟩ <;>
      simp [BatchStatistics.apply, BatchStatistics.register_batch,
        BatchedAccumulator.register_batch] <;> omega
  | discard =>
    exact ⟨h1, h2, h3, h4, h5, h6, h7⟩
  | add i v =>
    match i with
    | 0 => exact ⟨h1, h2, h3, h4, h5, h6, h7⟩
    | 1 => exact ⟨h1, h2, h3, h4, h5, h6, h7⟩
    | 2 => exact ⟨h1, h2, h3, h4, h5, h6, h7⟩
    | 3 => exact ⟨h1, h2, h3, h4, h5, h6, h7⟩
    | 4 => exact ⟨h1, h2, h3, h4, h5, h6, h7⟩
    | 5 => exact ⟨h1, h2, h3, h4, h5, h6, h7⟩
    | 6 => exact ⟨h1, h2, h3, h4, h5, h6, h7⟩
    | (j + 7) => exact ⟨h1, h2, h3, h4, h5, h6, h7⟩

theorem run_batch_inv (ops : List BatchOp) :
    ∀ st : BatchStatistics, batch_inv st → batch_inv (st.run ops) := by
  induction ops with
  | nil => exact fun st h => h
  | cons op ops ih => exact fun st h => ih (st.apply op) (apply_batch_inv st op h)

/-- C9: `register_batch` seals the open batch of every accumulator of the
group (appending its open value to the closed sequence and resetting it) and
increments `n_batches` by exactly one; consequently, after any sequence of
operations from a fresh group, `n_batches` equals the number of sealed
batches held by each of the seven accumulators. -/
theorem register_batch_uniform :
    (∀ st : BatchStatistics,
      st.register_batch.n_batches = st.n_batches + 1 ∧
      st.register_batch.arrived.batches = st.arrived.batches ++ [st.arrived.current] ∧
      st.register_batch.completed.batches = st.completed.batches ++ [st.completed.current] ∧
      st.register_batch.switched.batches = st.switched.batches ++ [st.switched.current] ∧
      st.register_batch.service.batches = st.service.batches ++ [st.service.current] ∧
      st.register_batch.n.batches = st.n.batches ++ [st.n.current] ∧
      st.register_batch.response.batches = st.response.batches ++ [st.response.current] ∧
      st.register_batch.throughput.batches = st.throughput.batches ++ [st.throughput.current] ∧
      st.register_batch.arrived.current = 0 ∧ st.register_batch.completed.current = 0 ∧
      st.register_batch.switched.current = 0 ∧ st.register_batch.service.current = 0 ∧
      st.register_batch.n.current = 0 ∧ st.register_batch.response.current = 0 ∧
      st.register_batch.throughput.current = 0) ∧
    ∀ ops : List BatchOp, batch_inv (BatchStatistics.new.run ops) := by
  constructor
  · intro st
    refine ⟨rfl, rfl, rfl, rfl, rfl, rfl, rfl, rfl, rfl, rfl, rfl, rfl, rfl, rfl, rfl⟩
  · intro ops
    exact run_batch_inv ops BatchStatistics.new ⟨rfl, rfl, rfl, rfl, rfl, rfl, rfl⟩

def cal_w5 : Calendar :=
  Calendar.new 0 ((10 : ℚ) : WithTop ℚ)
    [{ action := .ARRIVAL, scope := .SYSTEM, task := .TASK_1 }]

def ev_w5 : Event :=
  { etype := { action := .ARRIVAL, scope := .SYSTEM, task := .TASK_1 }, time := 12, eid := 0 }

theorem schedule_spec_witness :
    (cal_w5.schedule ev_w5).1 = false ∧ (cal_w5.schedule ev_w5).2 = cal_w5 :=
  (schedule_spec cal_w5 ev_w5).1.2 ⟨by decide, by decide⟩

end Demule
